import Mathlib

/-!
Shallow embedding of the BuffetGPT decision pipeline
(`backend/app/agents/{nutrition,stomach,optimization,strategy,pipeline}.py`).

Conventions of the embedding:
* Python `float` arithmetic is modelled by exact rational arithmetic (`ℚ`);
  every formula is transcribed literally from the source.
* Python's built-in `round(x, n)` (banker's rounding, ties to even) is
  modelled by `pyRoundTo`.
* Python's stable `list.sort(key=...)` is modelled by `List.insertionSort`
  with the corresponding `≤`-relation on keys; `List.insertionSort` is a
  stable sort, so it computes the same list as CPython's stable sort for
  every total preorder on keys.
* Python's substring test `a in b` on strings is modelled by `strContains b a`,
  and Python string methods `lower()/strip()/replace/title()` by
  `pyLower / pyStrip / pyReplace / pyTitle` (ASCII semantics, which is all
  this code base uses).
* Pydantic models are modelled as structures with the same fields and
  structural (field-wise) equality, matching pydantic `__eq__` which is what
  the Python expressions `d not in selected` / `d in str(...)` rely on.
-/

namespace BuffetGPT

set_option maxRecDepth 200000

/-! ### Python rounding (`round`, banker's rounding: ties go to the even integer) -/

/-- Python `round(x)` to an integer: nearest integer, ties to even. -/
def pyRoundInt (x : ℚ) : ℤ :=
  if x - ⌊x⌋ < 1/2 then ⌊x⌋
  else if 1/2 < x - ⌊x⌋ then ⌊x⌋ + 1
  else if 2 ∣ ⌊x⌋ then ⌊x⌋ else ⌊x⌋ + 1

/-- Python `round(x, n)` for `n ≥ 0` decimal digits (ties to even). -/
def pyRoundTo (n : ℕ) (x : ℚ) : ℚ :=
  (pyRoundInt (x * 10 ^ n) : ℚ) / 10 ^ n

/-- Python `round(x, 0)` (note: returns a number, like `round` with `ndigits=0`). -/
def pyRound0 (x : ℚ) : ℚ := pyRoundTo 0 x

/-! ### Python substring test (`needle in hay` on strings) -/

/-- `startsWithL pat l`: the char list `l` starts with `pat`. -/
def startsWithL : List Char → List Char → Bool
  | [], _ => true
  | _ :: _, [] => false
  | a :: as, b :: bs => a == b && startsWithL as bs

/-- `occursIn pat l`: `pat` occurs as a contiguous sublist of `l`
(Python `pat in l` for strings; the empty pattern always occurs). -/
def occursIn (pat : List Char) : List Char → Bool
  | [] => startsWithL pat []
  | c :: cs => startsWithL pat (c :: cs) || occursIn pat cs

/-- Python `needle in hay` for strings. -/
def strContains (hay needle : String) : Bool :=
  occursIn needle.data hay.data

/-- Python `str.lower()` (ASCII). -/
def pyLower (s : String) : String :=
  ⟨s.data.map Char.toLower⟩

/-- Python whitespace for `str.strip()`. -/
def pyIsSpace (c : Char) : Bool :=
  c == ' ' || c == '\t' || c == '\n' || c == '\r' || c == '\x0b' || c == '\x0c'

/-- Python `str.strip()`: drop leading and trailing whitespace. -/
def pyStrip (s : String) : String :=
  ⟨((s.data.dropWhile pyIsSpace).reverse.dropWhile pyIsSpace).reverse⟩

/-- Helper for `pyReplace`: replace occurrences of the nonempty pattern `pat`
by `sub`, left to right; `fuel` bounds the scan length. -/
def replaceAux (pat sub : List Char) : ℕ → List Char → List Char
  | _, [] => []
  | 0, l => l
  | fuel + 1, c :: cs =>
    if pat ≠ [] ∧ startsWithL pat (c :: cs) then
      sub ++ replaceAux pat sub fuel (List.drop (pat.length - 1) cs)
    else c :: replaceAux pat sub fuel cs

/-- Python `s.replace(pat, sub)` for a nonempty pattern. -/
def pyReplace (s pat sub : String) : String :=
  ⟨replaceAux pat.data sub.data s.data.length s.data⟩

/-! ### Python `str.title()` (used on phase names) -/

/-- One step of Python `str.title()`: the Bool says whether the previous
character was alphabetic. -/
def pyTitleGo : Bool → List Char → List Char
  | _, [] => []
  | prevAlpha, c :: cs =>
    let c' := if c.isAlpha then (if prevAlpha then c.toLower else c.toUpper) else c
    c' :: pyTitleGo c.isAlpha cs

/-- Python `str.title()`: capitalise the first letter of every alphabetic run,
lower-case the rest. -/
def pyTitle (s : String) : String :=
  ⟨pyTitleGo false s.data⟩

/-! ### Python `repr` of a float that is an exact short decimal.

All numbers that reach f-strings in this code base are decimal literals from
the nutrition table (or derived short decimals), for which CPython's float
`repr` prints the shortest decimal form with at least one digit after the
point (`31.0`, `3.6`, ...).  `floatRepr` reproduces that form for such
rationals; it is only used to build the human-readable reason strings. -/

/-- Decimal digits of the fractional part `q ∈ [0,1)`, most significant first;
`fuel` bounds the number of digits. -/
def fracDigits : ℕ → ℚ → List Char
  | 0, _ => []
  | fuel + 1, q =>
    if q = 0 then []
    else
      let q10 := q * 10
      let d : ℤ := ⌊q10⌋
      Char.ofNat (48 + d.toNat) :: fracDigits fuel (q10 - d)

/-- `repr` of a nonnegative float that is a short decimal. -/
def floatReprNonneg (q : ℚ) : String :=
  let ip : ℕ := (⌊q⌋).toNat
  let fp : ℚ := q - ⌊q⌋
  let ds := fracDigits 17 fp
  toString ip ++ "." ++ (if ds.isEmpty then "0" else String.mk ds)

/-- Python float `repr` for short decimals (used in f-strings). -/
def floatRepr (q : ℚ) : String :=
  if q < 0 then "-" ++ floatReprNonneg (-q) else floatReprNonneg q

/-! ### Configuration (`app/config.py`), environment defaults -/

def STOMACH_CAPACITY_ML : ℚ := 1350

def DEFAULT_CALORIE_LIMIT : Int := 2000

/-- Python `v or default` for an optional int (`None` and `0` are falsy). -/
def pyOrInt (v : Option Int) (default : Int) : Int :=
  match v with
  | none => default
  | some k => if k = 0 then default else k

/-! ### Data model (`app/models/schemas.py`) -/

/-- `NutritionalData`: per-100g nutrition values. -/
structure NutritionalData where
  calories : ℚ
  protein : ℚ
  fat : ℚ
  carbs : ℚ
  fiber : ℚ
  glycemic_load : ℚ := 0
  confidence : ℚ := 1
deriving DecidableEq

/-- `DetectedDish`: output of the (out-of-scope) vision stage. -/
structure DetectedDish where
  name : String
  confidence : ℚ
  estimated_portion_density : ℚ := 1
  cooking_method : Option String := none
  cuisine_type : Option String := none
  estimated_grams : ℚ := 100
  bounding_box : Option (List (String × ℚ)) := none
deriving DecidableEq

/-- `DishWithNutrition`: dish enriched with nutrition data. -/
structure DishWithNutrition extends DetectedDish where
  nutrition_per_100g : NutritionalData
deriving DecidableEq

/-- `StomachImpact`: stomach physics output per dish. -/
structure StomachImpact where
  volume_ml : ℚ
  satiety_score : ℚ
  digestion_speed : String
  fullness_contribution : ℚ
deriving DecidableEq

/-- `DishWithStomachImpact`: dish with stomach physics data. -/
structure DishWithStomachImpact extends DishWithNutrition where
  stomach_impact : StomachImpact
deriving DecidableEq

/-- `PhaseItem`: a single item in an eating phase. -/
structure PhaseItem where
  dish_name : String
  portion_grams : ℚ
  portion_ml : Option ℚ := none
  calories : ℚ
  protein : ℚ
  carbs : ℚ
  fat : ℚ
  reason : String
deriving DecidableEq

/-! ### Nutrition Intelligence Agent (`app/agents/nutrition.py`) -/

/-- One row of the embedded nutrition table (per-100g values). -/
structure DbRow where
  cal : ℚ
  protein : ℚ
  fat : ℚ
  carbs : ℚ
  fiber : ℚ
  gl : ℚ
deriving DecidableEq

/-- `NutritionAgent._load_nutrition_db`, in its Python insertion order. -/
def nutritionDb : List (String × DbRow) :=
  [ ("mixed salad", ⟨18, 3/2, 3/10, 7/2, 6/5, 2⟩),
    ("salad", ⟨18, 3/2, 3/10, 7/2, 6/5, 2⟩),
    ("grilled chicken", ⟨165, 31, 18/5, 0, 0, 0⟩),
    ("chicken", ⟨165, 31, 18/5, 0, 0, 0⟩),
    ("roasted vegetables", ⟨65, 2, 3, 8, 5/2, 4⟩),
    ("vegetables", ⟨65, 2, 3, 8, 5/2, 4⟩),
    ("rice", ⟨130, 27/10, 3/10, 28, 2/5, 23⟩),
    ("bread roll", ⟨265, 17/2, 16/5, 50, 27/10, 25⟩),
    ("bread", ⟨265, 17/2, 16/5, 50, 27/10, 25⟩),
    ("soup", ⟨45, 5/2, 3/2, 6, 1, 5⟩),
    ("pasta", ⟨131, 5, 11/10, 25, 9/5, 18⟩),
    ("dessert", ⟨350, 4, 15, 50, 1, 35⟩),
    ("cake", ⟨350, 4, 15, 50, 1, 35⟩),
    ("donut", ⟨421, 5, 22, 52, 3/2, 40⟩),
    ("pizza", ⟨266, 11, 10, 33, 23/10, 22⟩),
    ("hot dog", ⟨290, 10, 26, 4, 0, 3⟩),
    ("sandwich", ⟨250, 12, 10, 28, 3/2, 20⟩),
    ("broccoli", ⟨34, 14/5, 2/5, 7, 13/5, 2⟩),
    ("carrot", ⟨41, 9/10, 1/5, 10, 14/5, 5⟩),
    ("apple", ⟨52, 3/10, 1/5, 14, 12/5, 6⟩),
    ("orange", ⟨47, 9/10, 1/10, 12, 12/5, 5⟩),
    ("banana", ⟨89, 11/10, 3/10, 23, 13/5, 12⟩),
    ("steak", ⟨271, 26, 18, 0, 0, 0⟩),
    ("fish", ⟨206, 22, 12, 0, 0, 0⟩),
    ("salmon", ⟨208, 20, 13, 0, 0, 0⟩),
    ("fried chicken", ⟨287, 23, 18, 12, 1/2, 8⟩),
    ("potato", ⟨77, 2, 1/10, 17, 11/5, 14⟩),
    ("fries", ⟨312, 17/5, 15, 42, 19/5, 25⟩),
    ("cheese", ⟨402, 25, 33, 13/10, 0, 0⟩),
    ("eggs", ⟨155, 13, 11, 11/10, 0, 0⟩),
    ("beans", ⟨127, 87/10, 1/2, 23, 32/5, 6⟩),
    ("lentils", ⟨116, 9, 2/5, 20, 79/10, 5⟩),
    ("quinoa", ⟨120, 22/5, 19/10, 21, 14/5, 13⟩),
    ("hummus", ⟨166, 79/10, 48/5, 14, 6, 4⟩) ]

/-- The default profile returned when no lookup matches
(`\x7b"cal": 150, "protein": 8, "fat": 8, "carbs": 12, "fiber": 1.5, "gl": 10\x7d`). -/
def fallbackRow : DbRow := ⟨150, 8, 8, 12, 3/2, 10⟩

/-- `NutritionAgent._lookup`: exact key hit, then first partial match in table
order, then the generic default profile. -/
def dbLookup (dish_name : String) : DbRow :=
  let name_lower := pyStrip (pyLower dish_name)
  match nutritionDb.find? (fun kv => kv.1 = name_lower) with
  | some kv => kv.2
  | none =>
    match nutritionDb.find?
        (fun kv => strContains name_lower kv.1 || strContains kv.1 name_lower) with
    | some kv => kv.2
    | none => fallbackRow

/-- No lookup tier matches: the normalized name is not a key of the table and
no partial (substring) match exists, so `_lookup` returns the default
profile. -/
def dbNoMatch (dish_name : String) : Bool :=
  (nutritionDb.find? (fun kv => kv.1 = pyStrip (pyLower dish_name))).isNone &&
  (nutritionDb.find? (fun kv =>
    strContains (pyStrip (pyLower dish_name)) kv.1 ||
    strContains kv.1 (pyStrip (pyLower dish_name)))).isNone

/-- The Python rendering `str(self._db)` of the nutrition table, against which
`NutritionAgent.process` tests `d.name.lower() in str(self._db)` to pick the
confidence value. -/
def dbStr : String :=
  "\x7b\x27mixed salad\x27: \x7b\x27cal\x27: 18, \x27protein\x27: 1.5, \x27fat\x27: 0.3, \x27carbs\x27: 3.5, \x27fiber\x27: 1.2, \x27gl\x27: 2\x7d, \x27salad\x27: \x7b\x27cal\x27: 18, \x27protein\x27: 1.5, \x27fat\x27: 0.3, \x27carbs\x27: 3.5, \x27fiber\x27: 1.2, \x27gl\x27: 2\x7d, \x27grilled chicken\x27: \x7b\x27cal\x27: 165, \x27protein\x27: 31, \x27fat\x27: 3.6, \x27carbs\x27: 0, \x27fiber\x27: 0, \x27gl\x27: 0\x7d, \x27chicken\x27: \x7b\x27cal\x27: 165, \x27protein\x27: 31, \x27fat\x27: 3.6, \x27carbs\x27: 0, \x27fiber\x27: 0, \x27gl\x27: 0\x7d, \x27roasted vegetables\x27: \x7b\x27cal\x27: 65, \x27protein\x27: 2, \x27fat\x27: 3, \x27carbs\x27: 8, \x27fiber\x27: 2.5, \x27gl\x27: 4\x7d, \x27vegetables\x27: \x7b\x27cal\x27: 65, \x27protein\x27: 2, \x27fat\x27: 3, \x27carbs\x27: 8, \x27fiber\x27: 2.5, \x27gl\x27: 4\x7d, \x27rice\x27: \x7b\x27cal\x27: 130, \x27protein\x27: 2.7, \x27fat\x27: 0.3, \x27carbs\x27: 28, \x27fiber\x27: 0.4, \x27gl\x27: 23\x7d, \x27bread roll\x27: \x7b\x27cal\x27: 265, \x27protein\x27: 8.5, \x27fat\x27: 3.2, \x27carbs\x27: 50, \x27fiber\x27: 2.7, \x27gl\x27: 25\x7d, \x27bread\x27: \x7b\x27cal\x27: 265, \x27protein\x27: 8.5, \x27fat\x27: 3.2, \x27carbs\x27: 50, \x27fiber\x27: 2.7, \x27gl\x27: 25\x7d, \x27soup\x27: \x7b\x27cal\x27: 45, \x27protein\x27: 2.5, \x27fat\x27: 1.5, \x27carbs\x27: 6, \x27fiber\x27: 1, \x27gl\x27: 5\x7d, \x27pasta\x27: \x7b\x27cal\x27: 131, \x27protein\x27: 5, \x27fat\x27: 1.1, \x27carbs\x27: 25, \x27fiber\x27: 1.8, \x27gl\x27: 18\x7d, \x27dessert\x27: \x7b\x27cal\x27: 350, \x27protein\x27: 4, \x27fat\x27: 15, \x27carbs\x27: 50, \x27fiber\x27: 1, \x27gl\x27: 35\x7d, \x27cake\x27: \x7b\x27cal\x27: 350, \x27protein\x27: 4, \x27fat\x27: 15, \x27carbs\x27: 50, \x27fiber\x27: 1, \x27gl\x27: 35\x7d, \x27donut\x27: \x7b\x27cal\x27: 421, \x27protein\x27: 5, \x27fat\x27: 22, \x27carbs\x27: 52, \x27fiber\x27: 1.5, \x27gl\x27: 40\x7d, \x27pizza\x27: \x7b\x27cal\x27: 266, \x27protein\x27: 11, \x27fat\x27: 10, \x27carbs\x27: 33, \x27fiber\x27: 2.3, \x27gl\x27: 22\x7d, \x27hot dog\x27: \x7b\x27cal\x27: 290, \x27protein\x27: 10, \x27fat\x27: 26, \x27carbs\x27: 4, \x27fiber\x27: 0, \x27gl\x27: 3\x7d, \x27sandwich\x27: \x7b\x27cal\x27: 250, \x27protein\x27: 12, \x27fat\x27: 10, \x27carbs\x27: 28, \x27fiber\x27: 1.5, \x27gl\x27: 20\x7d, \x27broccoli\x27: \x7b\x27cal\x27: 34, \x27protein\x27: 2.8, \x27fat\x27: 0.4, \x27carbs\x27: 7, \x27fiber\x27: 2.6, \x27gl\x27: 2\x7d, \x27carrot\x27: \x7b\x27cal\x27: 41, \x27protein\x27: 0.9, \x27fat\x27: 0.2, \x27carbs\x27: 10, \x27fiber\x27: 2.8, \x27gl\x27: 5\x7d, \x27apple\x27: \x7b\x27cal\x27: 52, \x27protein\x27: 0.3, \x27fat\x27: 0.2, \x27carbs\x27: 14, \x27fiber\x27: 2.4, \x27gl\x27: 6\x7d, \x27orange\x27: \x7b\x27cal\x27: 47, \x27protein\x27: 0.9, \x27fat\x27: 0.1, \x27carbs\x27: 12, \x27fiber\x27: 2.4, \x27gl\x27: 5\x7d, \x27banana\x27: \x7b\x27cal\x27: 89, \x27protein\x27: 1.1, \x27fat\x27: 0.3, \x27carbs\x27: 23, \x27fiber\x27: 2.6, \x27gl\x27: 12\x7d, \x27steak\x27: \x7b\x27cal\x27: 271, \x27protein\x27: 26, \x27fat\x27: 18, \x27carbs\x27: 0, \x27fiber\x27: 0, \x27gl\x27: 0\x7d, \x27fish\x27: \x7b\x27cal\x27: 206, \x27protein\x27: 22, \x27fat\x27: 12, \x27carbs\x27: 0, \x27fiber\x27: 0, \x27gl\x27: 0\x7d, \x27salmon\x27: \x7b\x27cal\x27: 208, \x27protein\x27: 20, \x27fat\x27: 13, \x27carbs\x27: 0, \x27fiber\x27: 0, \x27gl\x27: 0\x7d, \x27fried chicken\x27: \x7b\x27cal\x27: 287, \x27protein\x27: 23, \x27fat\x27: 18, \x27carbs\x27: 12, \x27fiber\x27: 0.5, \x27gl\x27: 8\x7d, \x27potato\x27: \x7b\x27cal\x27: 77, \x27protein\x27: 2, \x27fat\x27: 0.1, \x27carbs\x27: 17, \x27fiber\x27: 2.2, \x27gl\x27: 14\x7d, \x27fries\x27: \x7b\x27cal\x27: 312, \x27protein\x27: 3.4, \x27fat\x27: 15, \x27carbs\x27: 42, \x27fiber\x27: 3.8, \x27gl\x27: 25\x7d, \x27cheese\x27: \x7b\x27cal\x27: 402, \x27protein\x27: 25, \x27fat\x27: 33, \x27carbs\x27: 1.3, \x27fiber\x27: 0, \x27gl\x27: 0\x7d, \x27eggs\x27: \x7b\x27cal\x27: 155, \x27protein\x27: 13, \x27fat\x27: 11, \x27carbs\x27: 1.1, \x27fiber\x27: 0, \x27gl\x27: 0\x7d, \x27beans\x27: \x7b\x27cal\x27: 127, \x27protein\x27: 8.7, \x27fat\x27: 0.5, \x27carbs\x27: 23, \x27fiber\x27: 6.4, \x27gl\x27: 6\x7d, \x27lentils\x27: \x7b\x27cal\x27: 116, \x27protein\x27: 9, \x27fat\x27: 0.4, \x27carbs\x27: 20, \x27fiber\x27: 7.9, \x27gl\x27: 5\x7d, \x27quinoa\x27: \x7b\x27cal\x27: 120, \x27protein\x27: 4.4, \x27fat\x27: 1.9, \x27carbs\x27: 21, \x27fiber\x27: 2.8, \x27gl\x27: 13\x7d, \x27hummus\x27: \x7b\x27cal\x27: 166, \x27protein\x27: 7.9, \x27fat\x27: 9.6, \x27carbs\x27: 14, \x27fiber\x27: 6, \x27gl\x27: 4\x7d\x7d"

/-- `NutritionAgent.process`: enrich each dish with per-100g nutrition data. -/
def nutritionProcess (dishes : List DetectedDish) : List DishWithNutrition :=
  dishes.map fun d =>
    let nd := dbLookup d.name
    { toDetectedDish := d
      nutrition_per_100g :=
        { calories := nd.cal
          protein := nd.protein
          fat := nd.fat
          carbs := nd.carbs
          fiber := nd.fiber
          glycemic_load := nd.gl
          confidence := if strContains dbStr (pyLower d.name) then 9/10 else 7/10 } }

/-! ### Stomach Physics Agent (`app/agents/stomach.py`) -/

/-- `StomachPhysicsAgent._satiety_score` (per 100g). -/
def satietyScore (dish : DishWithNutrition) : ℚ :=
  let n := dish.nutrition_per_100g
  let cal := max n.calories 10
  let protein_score := n.protein * 2
  let fiber_score := n.fiber * 3
  let volume_score := if cal > 0 then 100 / (cal / 100) else 0
  let fat_penalty := n.fat * (1/2)
  max 0 (protein_score + fiber_score + volume_score - fat_penalty)

/-- `StomachPhysicsAgent._digestion_speed`. -/
def digestionSpeed (dish : DishWithNutrition) : String :=
  let n := dish.nutrition_per_100g
  if n.calories < 60 ∧ n.fat < 2 then "fast"
  else if n.fat > 15 then "slow"
  else if n.fiber > 5 then "medium"
  else "medium"

/-- `StomachPhysicsAgent._volume_ml` (`density or 1.0`: a zero density is
falsy in Python and replaced by 1.0). -/
def volumeMl (dish : DishWithNutrition) : ℚ :=
  let density := if dish.estimated_portion_density = 0 then 1
                 else dish.estimated_portion_density
  dish.estimated_grams / density

/-- `StomachPhysicsAgent.process`. -/
def stomachProcess (dishes : List DishWithNutrition) : List DishWithStomachImpact :=
  dishes.map fun d =>
    let vol := volumeMl d
    let satiety := satietyScore d
    let speed := digestionSpeed d
    let fullness := min 1 ((vol / STOMACH_CAPACITY_ML) * (1 + satiety * (1/10)))
    { toDishWithNutrition := d
      stomach_impact :=
        { volume_ml := vol
          satiety_score := pyRoundTo 2 satiety
          digestion_speed := speed
          fullness_contribution := pyRoundTo 3 fullness } }

/-! ### Goal Optimization Agent (`app/agents/optimization.py`) -/

/-- `GoalOptimizationAgent._goal_reward`. -/
def goalReward (dish : DishWithStomachImpact) (goal : String) : ℚ :=
  let n := dish.nutrition_per_100g
  let g := dish.estimated_grams / 100
  let sat := dish.stomach_impact.satiety_score
  if goal = "fat_loss" then (n.protein * 2 + n.fiber * 2 - n.calories / 50) * g
  else if goal = "muscle_gain" then (n.protein * 3 + n.carbs * (1/2)) * g
  else if goal = "blood_sugar" then (10 - n.glycemic_load + n.fiber * 2) * g
  else (sat + n.protein * (1/2)) * g

/-- `GoalOptimizationAgent._filter_allergies`. -/
def filterAllergies (dishes : List DishWithStomachImpact) (allergies : List String) :
    List DishWithStomachImpact :=
  if allergies.isEmpty then dishes
  else
    let allergen_keywords := allergies.map pyLower
    dishes.filter fun d =>
      !(allergen_keywords.any fun kw => strContains (pyLower d.name) kw)

/-- The non-vegan keyword set in `GoalOptimizationAgent._filter_dietary`. -/
def nonVeganKeywords : List String :=
  ["chicken", "meat", "fish", "salmon", "steak", "eggs", "cheese"]

/-- The non-vegetarian keyword set in `GoalOptimizationAgent._filter_dietary`. -/
def nonVegetarianKeywords : List String :=
  ["chicken", "meat", "fish", "salmon", "steak", "hot dog"]

/-- `GoalOptimizationAgent._filter_dietary` (vegan takes precedence over
vegetarian; unknown filter tags are no-ops). -/
def filterDietary (dishes : List DishWithStomachImpact) (filters : List String) :
    List DishWithStomachImpact :=
  if filters.isEmpty then dishes
  else
    let filter_lower := filters.map pyLower
    if filter_lower.contains "vegan" then
      dishes.filter fun d => !(nonVeganKeywords.any fun nv => strContains (pyLower d.name) nv)
    else if filter_lower.contains "vegetarian" then
      dishes.filter fun d => !(nonVegetarianKeywords.any fun nv => strContains (pyLower d.name) nv)
    else dishes

/-- The filtered input the optimizer works on: allergy filter then dietary
filter, exactly as in `GoalOptimizationAgent.process`. -/
def filteredInput (dishes : List DishWithStomachImpact)
    (allergies dietary_filters : List String) : List DishWithStomachImpact :=
  filterDietary (filterAllergies dishes allergies) dietary_filters

/-- Calories contributed by a dish at its full estimated mass
(`d.nutrition_per_100g.calories * (d.estimated_grams / 100)`). -/
def dishCalories (d : DishWithStomachImpact) : ℚ :=
  d.nutrition_per_100g.calories * (d.estimated_grams / 100)

/-- Total calories of a list of dishes at their full estimated masses. -/
def calSum (l : List DishWithStomachImpact) : ℚ :=
  (l.map dishCalories).sum

/-- Total volume of a list of dishes. -/
def volSum (l : List DishWithStomachImpact) : ℚ :=
  (l.map (·.stomach_impact.volume_ml)).sum

/-- The greedy selection loop of `GoalOptimizationAgent.process`: one pass
over the score-sorted list, accepting a dish only when both running totals
stay within bounds.  State: (selected so far, total calories, total volume). -/
def greedyAcc (calorie_limit stomach_capacity_ml : ℚ) :
    List (ℚ × DishWithStomachImpact) →
    List DishWithStomachImpact × ℚ × ℚ → List DishWithStomachImpact × ℚ × ℚ
  | [], st => st
  | (_, d) :: rest, (selected, total_cal, total_vol) =>
    let cal := dishCalories d
    let vol := d.stomach_impact.volume_ml
    if total_cal + cal ≤ calorie_limit ∧
        total_vol + vol ≤ stomach_capacity_ml * (11/10) then
      greedyAcc calorie_limit stomach_capacity_ml rest
        (selected ++ [d], total_cal + cal, total_vol + vol)
    else
      greedyAcc calorie_limit stomach_capacity_ml rest (selected, total_cal, total_vol)

/-- The scored list `[(goal_reward d, d) | d in filtered]` sorted by
descending score (`scored.sort(key=lambda x: -x[0])`; a stable sort,
ascending in the key `-score`). -/
def sortedScored (dishes : List DishWithStomachImpact) (goal : String) :
    List (ℚ × DishWithStomachImpact) :=
  (dishes.map fun d => (goalReward d goal, d)).insertionSort
    (fun a b => -a.1 ≤ -b.1)

/-- The score-descending order in which the greedy pass visits the filtered
dishes. -/
def greedyOrder (dishes : List DishWithStomachImpact) (goal : String)
    (allergies dietary_filters : List String) : List DishWithStomachImpact :=
  (sortedScored (filteredInput dishes allergies dietary_filters) goal).map (·.2)

/-- `GoalOptimizationAgent.process`: returns `(selected, skip)`. -/
def optProcess (dishes : List DishWithStomachImpact) (goal : String)
    (allergies dietary_filters : List String)
    (calorie_limit stomach_capacity_ml : ℚ) :
    List DishWithStomachImpact × List DishWithStomachImpact :=
  let dishes := filteredInput dishes allergies dietary_filters
  if dishes.isEmpty then ([], [])
  else
    let scored := sortedScored dishes goal
    let selected := (greedyAcc calorie_limit stomach_capacity_ml scored ([], 0, 0)).1
    (selected, dishes.filter fun d => !(decide (d ∈ selected)))

/-- The list built by the greedy loop of `GoalOptimizationAgent.process`,
starting from the empty selection. -/
def greedySelected (dishes : List DishWithStomachImpact) (goal : String)
    (allergies dietary_filters : List String) (calorie_limit stomach_capacity_ml : ℚ) :
    List DishWithStomachImpact :=
  (greedyAcc calorie_limit stomach_capacity_ml
    (sortedScored (filteredInput dishes allergies dietary_filters) goal) ([], 0, 0)).1

/-! ### Strategy Planning Agent (`app/agents/strategy.py`) -/

/-- `StrategyPlanningAgent._classify_phase` (first matching rule wins). -/
def classifyPhase (dish : DishWithStomachImpact) : String :=
  let n := dish.nutrition_per_100g
  let name_lower := pyLower dish.name
  if ["soup", "salad", "broth", "consomme"].any (fun kw => strContains name_lower kw) then
    "starter"
  else if n.protein > 15 ∨
      ["chicken", "fish", "steak", "salmon", "meat", "eggs"].any
        (fun kw => strContains name_lower kw) then
    "protein"
  else if ["dessert", "cake", "donut", "cookie", "pastry"].any
      (fun kw => strContains name_lower kw) then
    "treats"
  else if ["rice", "pasta", "bread", "potato", "quinoa", "beans"].any
      (fun kw => strContains name_lower kw) then
    "carbs"
  else if ["vegetable", "broccoli", "carrot"].any (fun kw => strContains name_lower kw) then
    "vegetables"
  else if n.protein > 10 then "protein"
  else if n.carbs > 20 then "carbs"
  else "vegetables"

/-- The five phase names `_classify_phase` can produce. -/
def phaseNamesList : List String :=
  ["starter", "protein", "treats", "carbs", "vegetables"]

/-- `StrategyPlanningAgent._phase_order` (`order_map.get(phase_name, 3)`). -/
def phaseOrderOf (phase_name : String) : ℕ :=
  if phase_name = "starter" then 1
  else if phase_name = "protein" then 2
  else if phase_name = "vegetables" then 3
  else if phase_name = "carbs" then 4
  else if phase_name = "treats" then 5
  else 3

/-- `StrategyPlanningAgent._compute_portion`: returns `(portion_grams, reason)`. -/
def computePortion (dish : DishWithStomachImpact)
    (calorie_budget_remaining stomach_remaining_ml : ℚ) : ℚ × String :=
  let n := dish.nutrition_per_100g
  let cal_per_100 := n.calories
  let vol_per_100 :=
    if dish.estimated_grams ≠ 0 then
      dish.stomach_impact.volume_ml / (dish.estimated_grams / 100)
    else 100
  let max_by_cal := if cal_per_100 > 0 then calorie_budget_remaining / cal_per_100 * 100 else 500
  let max_by_vol := if vol_per_100 > 0 then stomach_remaining_ml / vol_per_100 * 100 else 500
  let portion := min (min (min dish.estimated_grams max_by_cal) max_by_vol) 250
  let portion := max 20 (pyRound0 portion)
  let reason :=
    if strContains (pyLower dish.name) "soup" || strContains (pyLower dish.name) "salad" then
      "Volume-fill to increase satiety with low calories"
    else if n.protein > 15 then
      "High protein (" ++ floatRepr n.protein ++ "g/100g) for satiety"
    else if n.glycemic_load < 5 then
      "Low glycemic load (" ++ floatRepr n.glycemic_load ++ ") for blood sugar"
    else
      "Balanced portion for variety"
  (portion, reason)

/-- `phase_groups.setdefault(phase, []).append(d)`: append `d` to the group
of key `k`, creating the group at the end (Python dicts preserve insertion
order). -/
def addToGroups (groups : List (String × List DishWithStomachImpact)) (k : String)
    (d : DishWithStomachImpact) : List (String × List DishWithStomachImpact) :=
  match groups with
  | [] => [(k, [d])]
  | (k', ds) :: rest =>
    if k' = k then (k', ds ++ [d]) :: rest else (k', ds) :: addToGroups rest k d

/-- The `phase_groups` dict of `StrategyPlanningAgent.process`, as an
insertion-ordered association list. -/
def phaseGroups (selected_dishes : List DishWithStomachImpact) :
    List (String × List DishWithStomachImpact) :=
  selected_dishes.foldl (fun gs d => addToGroups gs (classifyPhase d) d) []

/-- `EatingPhase` as emitted by the planner. -/
structure PhaseOut where
  phase_name : String
  phase_order : ℕ
  items : List PhaseItem
deriving DecidableEq

/-- One entry of the planner's skip list. -/
structure SkipEntry where
  name : String
  reason : String
deriving DecidableEq

/-- The inner loop of `StrategyPlanningAgent.process` over one phase's dishes,
threading the running totals `(total_calories, stomach_used_ml)`. -/
def buildItems (calorie_limit : ℚ) :
    List DishWithStomachImpact → ℚ → ℚ → List PhaseItem × ℚ × ℚ
  | [], total_calories, stomach_used_ml => ([], total_calories, stomach_used_ml)
  | dish :: rest, total_calories, stomach_used_ml =>
    let cal_remaining := calorie_limit - total_calories
    let vol_remaining := STOMACH_CAPACITY_ML - stomach_used_ml
    let pr := computePortion dish cal_remaining vol_remaining
    let portion := pr.1
    let n := dish.nutrition_per_100g
    let factor := portion / 100
    let item : PhaseItem :=
      { dish_name := dish.name
        portion_grams := portion
        portion_ml :=
          if dish.estimated_grams ≠ 0 then
            some (pyRoundTo 1 (dish.stomach_impact.volume_ml * (portion / dish.estimated_grams)))
          else none
        calories := pyRoundTo 1 (n.calories * factor)
        protein := pyRoundTo 1 (n.protein * factor)
        carbs := pyRoundTo 1 (n.carbs * factor)
        fat := pyRoundTo 1 (n.fat * factor)
        reason := pr.2 }
    -- `stomach_used_ml += item.portion_ml or (portion * 1.0)`:
    -- `None` and `0.0` are falsy in Python.
    let vol_add :=
      match item.portion_ml with
      | some v => if v = 0 then portion * 1 else v
      | none => portion * 1
    let st := buildItems calorie_limit rest (total_calories + item.calories)
        (stomach_used_ml + vol_add)
    (item :: st.1, st.2)

/-- The outer loop of `StrategyPlanningAgent.process` over the sorted phase
groups, threading the running totals across phases. -/
def buildPhases (calorie_limit : ℚ) :
    List (String × List DishWithStomachImpact) → ℚ → ℚ → List PhaseOut × ℚ × ℚ
  | [], total_calories, stomach_used_ml => ([], total_calories, stomach_used_ml)
  | (phase_name, dishes) :: rest, total_calories, stomach_used_ml =>
    let st := buildItems calorie_limit dishes total_calories stomach_used_ml
    let ph : PhaseOut :=
      { phase_name := pyTitle (pyReplace phase_name "_" " ")
        phase_order := phaseOrderOf phase_name
        items := st.1 }
    let st' := buildPhases calorie_limit rest st.2.1 st.2.2
    (ph :: st'.1, st'.2)

/-- The planner's `strategy` dict. `phase1`..`phase5` are `phases[i]` when
present (`None` otherwise); `stomach_used_ml` is `none` only in the empty
pipeline response, which omits the key. -/
structure StrategyOut where
  phase1 : Option PhaseOut := none
  phase2 : Option PhaseOut := none
  phase3 : Option PhaseOut := none
  phase4 : Option PhaseOut := none
  phase5 : Option PhaseOut := none
  phases : List PhaseOut
  skip : List SkipEntry
  total_calories : ℚ
  fullness_score : ℚ
  stomach_used_ml : Option ℚ := none
deriving DecidableEq

/-- `StrategyPlanningAgent._generate_explanation`: deterministic templated
narrative. -/
def generateExplanation (strategy : StrategyOut) (goal : String)
    (skip : List DishWithStomachImpact) : String :=
  let phases := strategy.phases
  let starter_items := phases.filter fun p => strContains (pyLower p.phase_name) "starter"
  let parts1 : List String :=
    match starter_items with
    | p :: _ =>
      if !p.items.isEmpty then
        ["Start with soup or salad to fill volume cheaply (low calories, high satiety). "]
      else []
    | [] => []
  let protein_items := phases.filter fun p => strContains (pyLower p.phase_name) "protein"
  let parts2 : List String :=
    match protein_items with
    | p :: _ =>
      if !p.items.isEmpty then
        let names := p.items.map (·.dish_name)
        ["Then prioritize protein (" ++ String.intercalate ", " names ++
          ") for satiety and muscle support. "]
      else []
    | [] => []
  let carb_items := phases.filter fun p =>
    strContains (pyLower p.phase_name) "carbs" || strContains (pyLower p.phase_name) "vegetable"
  let parts3 : List String :=
    carb_items.foldr
      (fun p acc =>
        if !p.items.isEmpty then
          ("Add " ++ String.intercalate ", " (p.items.map (·.dish_name)) ++
            " for energy and fiber. ") :: acc
        else acc) []
  let treat_items := phases.filter fun p => strContains (pyLower p.phase_name) "treat"
  let parts4 : List String :=
    match treat_items with
    | p :: _ =>
      if !p.items.isEmpty then
        ["Save dessert for last—your stomach will be fuller, so you\x27ll eat less. "]
      else []
    | [] => []
  let parts5 : List String :=
    if !skip.isEmpty then
      ["Skip or minimize: " ++ String.intercalate ", " ((skip.take 5).map (·.name)) ++ ". "]
    else []
  let goal_hint :=
    if goal = "fat_loss" then
      "Strategy favors high-protein, high-fiber, low-calorie-density items."
    else if goal = "muscle_gain" then
      "Strategy prioritizes protein and moderate carbs for recovery."
    else if goal = "blood_sugar" then
      "Strategy selects low-glycemic items and pairs carbs with fiber."
    else if goal = "enjoyment_first" then
      "Strategy balances satiety with variety for maximum enjoyment."
    else ""
  let parts6 : List String := if goal_hint ≠ "" then [goal_hint] else []
  let joined :=
    pyStrip (String.join (parts1 ++ parts2 ++ parts3 ++ parts4 ++ parts5 ++ parts6))
  if joined = "" then "Follow the phases in order for optimal satiety and nutrition."
  else joined

/-- The phase groups visited in sorted order.  The source iterates
`for phase_name in sorted(phase_groups.keys(), key=self._phase_order)` and
looks each group up again; since the dict keys are distinct, this visits
exactly the association-list pairs stably sorted by `_phase_order` of the
key, which is how it is written here. -/
def sortedPhaseGroups (selected_dishes : List DishWithStomachImpact) :
    List (String × List DishWithStomachImpact) :=
  (phaseGroups selected_dishes).insertionSort
    (fun a b => phaseOrderOf a.1 ≤ phaseOrderOf b.1)

/-- `StrategyPlanningAgent.process`: returns `(strategy, explanation)`. -/
def strategyProcess (selected_dishes skip_dishes : List DishWithStomachImpact)
    (goal : String) (calorie_limit : ℚ) : StrategyOut × String :=
  let sorted_groups := sortedPhaseGroups selected_dishes
  let built := buildPhases calorie_limit sorted_groups 0 0
  let total_calories := built.2.1
  let stomach_used_ml := built.2.2
  -- `phases.sort(key=lambda p: p["phase_order"])` (already in this order).
  let phases := built.1.insertionSort (fun a b => a.phase_order ≤ b.phase_order)
  let skip_list : List SkipEntry := skip_dishes.map fun d =>
    { name := d.name, reason := "Lower priority for goal or exceeded volume/calorie limit" }
  let fullness_score := min 1 (stomach_used_ml / STOMACH_CAPACITY_ML)
  let strategy : StrategyOut :=
    { phase1 := phases[0]?
      phase2 := phases[1]?
      phase3 := phases[2]?
      phase4 := phases[3]?
      phase5 := phases[4]?
      phases := phases
      skip := skip_list
      total_calories := pyRoundTo 1 total_calories
      fullness_score := pyRoundTo 2 fullness_score
      stomach_used_ml := some (pyRoundTo 1 stomach_used_ml) }
  (strategy, generateExplanation strategy goal skip_dishes)

/-! ### Pipeline orchestration (`app/agents/pipeline.py`), post-detection part -/

/-- A manual dish dict as accepted by `run_pipeline_manual`
(`d.get("estimated_grams", 100)`: an absent key is `none`). -/
structure ManualDishInput where
  name : String
  estimated_grams : Option ℚ := none
  cooking_method : Option String := none
deriving DecidableEq

/-- `_detected_dish_from_manual`: manual dishes get detection confidence 0.9
and a default estimated mass of 100 g. -/
def detectedDishFromManual (d : ManualDishInput) : DetectedDish :=
  { name := d.name
    confidence := 9/10
    estimated_grams := d.estimated_grams.getD 100
    cooking_method := d.cooking_method }

/-- `_build_nutrition_summary`. -/
structure NutritionSummary where
  total_available_calories : ℚ
  total_protein_g : ℚ
  total_fat_g : ℚ
  total_carbs_g : ℚ
  total_fiber_g : ℚ
  total_glycemic_load : ℚ
  dish_count : ℕ
deriving DecidableEq

/-- Digestion-speed counts in `_build_stomach_simulation`. -/
structure DigestionProfiles where
  fast : ℕ
  medium : ℕ
  slow : ℕ
deriving DecidableEq

/-- `_build_stomach_simulation`. -/
structure StomachSimulation where
  total_volume_ml : ℚ
  selected_volume_ml : ℚ
  capacity_ml : ℚ
  avg_satiety_score : ℚ
  digestion_profiles : DigestionProfiles
deriving DecidableEq

/-- The structured pipeline response.  The empty response leaves
`nutrition_summary`/`stomach_simulation` as empty dicts, modelled by `none`. -/
structure Response where
  detected_dishes : List DetectedDish
  nutrition_summary : Option NutritionSummary
  stomach_simulation : Option StomachSimulation
  strategy : StrategyOut
  explanation : String
  confidence_overall : ℚ
deriving DecidableEq

/-- `_build_nutrition_summary`: aggregate nutrition across all detected
dishes, scaled by mass and rounded to one decimal. -/
def buildNutritionSummary (dishes : List DishWithNutrition) : NutritionSummary :=
  let contrib := fun (f : NutritionalData → ℚ) =>
    (dishes.map fun d => f d.nutrition_per_100g * (d.estimated_grams / 100)).sum
  { total_available_calories := pyRoundTo 1 (contrib (·.calories))
    total_protein_g := pyRoundTo 1 (contrib (·.protein))
    total_fat_g := pyRoundTo 1 (contrib (·.fat))
    total_carbs_g := pyRoundTo 1 (contrib (·.carbs))
    total_fiber_g := pyRoundTo 1 (contrib (·.fiber))
    total_glycemic_load := pyRoundTo 1 (contrib (·.glycemic_load))
    dish_count := dishes.length }

/-- `_build_stomach_simulation`. -/
def buildStomachSimulation (dishes selected : List DishWithStomachImpact) :
    StomachSimulation :=
  let total_vol := (dishes.map (·.stomach_impact.volume_ml)).sum
  let selected_vol := (selected.map (·.stomach_impact.volume_ml)).sum
  let avg_satiety :=
    if !selected.isEmpty then
      (selected.map (·.stomach_impact.satiety_score)).sum / selected.length
    else 0
  { total_volume_ml := pyRoundTo 1 total_vol
    selected_volume_ml := pyRoundTo 1 selected_vol
    capacity_ml := 1350
    avg_satiety_score := pyRoundTo 2 avg_satiety
    digestion_profiles :=
      { fast := (selected.filter fun d => d.stomach_impact.digestion_speed = "fast").length
        medium := (selected.filter fun d => d.stomach_impact.digestion_speed = "medium").length
        slow := (selected.filter fun d => d.stomach_impact.digestion_speed = "slow").length } }

/-- `_empty_response`. -/
def emptyResponse (msg : String) : Response :=
  { detected_dishes := []
    nutrition_summary := none
    stomach_simulation := none
    strategy :=
      { phases := []
        skip := []
        total_calories := 0
        fullness_score := 0 }
    explanation := msg
    confidence_overall := 0 }

/-- `_run_rest_of_pipeline`: the full post-detection pipeline
(Nutrition → Stomach → Optimization → Strategy → response assembly). -/
def runRestOfPipeline (detected_dishes : List DetectedDish) (goal : String)
    (calorie_limit : Option Int) (allergies dietary_filters : List String) : Response :=
  if detected_dishes.isEmpty then emptyResponse "No dishes detected."
  else
    let with_nutrition := nutritionProcess detected_dishes
    let with_stomach := stomachProcess with_nutrition
    -- `GoalOptimizationAgent(calorie_limit=calorie_limit or settings.DEFAULT_CALORIE_LIMIT, ...)`
    -- whose `__init__` applies `calorie_limit or settings.DEFAULT_CALORIE_LIMIT` once more.
    let opt_limit : Int :=
      pyOrInt (some (pyOrInt calorie_limit DEFAULT_CALORIE_LIMIT)) DEFAULT_CALORIE_LIMIT
    let sel_skip := optProcess with_stomach goal allergies dietary_filters
      (opt_limit : ℚ) STOMACH_CAPACITY_ML
    let selected := sel_skip.1
    let skip := sel_skip.2
    let strat := strategyProcess selected skip goal
      ((pyOrInt calorie_limit DEFAULT_CALORIE_LIMIT : Int) : ℚ)
    let confidence : ℚ :=
      if !detected_dishes.isEmpty then
        (detected_dishes.map (·.confidence)).sum / detected_dishes.length
      else 0
    { detected_dishes := detected_dishes
      nutrition_summary := some (buildNutritionSummary with_nutrition)
      stomach_simulation := some (buildStomachSimulation with_stomach selected)
      strategy := strat.1
      explanation := strat.2
      confidence_overall := pyRoundTo 2 confidence }

/-- `run_pipeline_manual`: build detected dishes from the manual list, then
run the shared post-detection pipeline. -/
def runPipelineManual (dishes : List ManualDishInput) (goal : String)
    (calorie_limit : Option Int) (allergies dietary_filters : List String) : Response :=
  runRestOfPipeline (dishes.map detectedDishFromManual) goal calorie_limit
    allergies dietary_filters

/-! ### Concrete fixtures used by counterexamples and witnesses -/

/-- A 1000 g steak dish (nutrition row of `"steak"`, density 1). -/
def dishSteakBig : DishWithStomachImpact :=
  { name := "steak", confidence := 9/10, estimated_portion_density := 1
    estimated_grams := 1000
    nutrition_per_100g :=
      { calories := 271, protein := 26, fat := 18, carbs := 0, fiber := 0
        glycemic_load := 0, confidence := 9/10 }
    stomach_impact :=
      { volume_ml := 1000, satiety_score := 0, digestion_speed := "slow"
        fullness_contribution := 1 } }

/-- A 100 g rice dish (nutrition row of `"rice"`, density 1). -/
def dishRiceSmall : DishWithStomachImpact :=
  { name := "rice", confidence := 9/10, estimated_portion_density := 1
    estimated_grams := 100
    nutrition_per_100g :=
      { calories := 130, protein := 27/10, fat := 3/10, carbs := 28, fiber := 2/5
        glycemic_load := 23, confidence := 9/10 }
    stomach_impact :=
      { volume_ml := 100, satiety_score := 0, digestion_speed := "medium"
        fullness_contribution := 1/10 } }

/-- A 1000 g rice dish (used twice to build a duplicate input). -/
def dishRiceBig : DishWithStomachImpact :=
  { name := "rice", confidence := 9/10, estimated_portion_density := 1
    estimated_grams := 1000
    nutrition_per_100g :=
      { calories := 130, protein := 27/10, fat := 3/10, carbs := 28, fiber := 2/5
        glycemic_load := 23, confidence := 9/10 }
    stomach_impact :=
      { volume_ml := 1000, satiety_score := 0, digestion_speed := "medium"
        fullness_contribution := 1 } }

/-- A 150 g grilled-chicken dish (matches the allergen keyword "chicken"). -/
def dishChicken : DishWithStomachImpact :=
  { name := "grilled chicken", confidence := 9/10, estimated_portion_density := 1
    estimated_grams := 150
    nutrition_per_100g :=
      { calories := 165, protein := 31, fat := 18/5, carbs := 0, fiber := 0
        glycemic_load := 0, confidence := 9/10 }
    stomach_impact :=
      { volume_ml := 150, satiety_score := 0, digestion_speed := "medium"
        fullness_contribution := 1/10 } }

/-- A 10 g rice dish: estimated mass below the planner's 20 g floor. -/
def dishRiceTiny : DishWithStomachImpact :=
  { name := "rice", confidence := 9/10, estimated_portion_density := 1
    estimated_grams := 10
    nutrition_per_100g :=
      { calories := 130, protein := 27/10, fat := 3/10, carbs := 28, fiber := 2/5
        glycemic_load := 23, confidence := 9/10 }
    stomach_impact :=
      { volume_ml := 10, satiety_score := 0, digestion_speed := "medium"
        fullness_contribution := 1/100 } }

/-- A manual dish entry with no `estimated_grams` key. -/
def manualRice : ManualDishInput := { name := "rice" }

/-- An unrecognized detected dish name (the spec's own example). -/
def dishXyz : DetectedDish :=
  { name := "xyzfood123", confidence := 1/2 }

/-- The enriched record the nutrition agent produces for `dishXyz`:
the generic fallback profile with confidence 0.7. -/
def xyzEnriched : DishWithNutrition :=
  { toDetectedDish := dishXyz
    nutrition_per_100g :=
      { calories := 150, protein := 8, fat := 8, carbs := 12, fiber := 3/2
        glycemic_load := 10, confidence := 7/10 } }

/-! ### Helper lemmas: Python rounding -/

theorem floor_le_pyRoundInt (x : ℚ) : ⌊x⌋ ≤ pyRoundInt x := by
  unfold pyRoundInt
  split_ifs <;> omega

theorem pyRoundInt_le_floor_add_one (x : ℚ) : pyRoundInt x ≤ ⌊x⌋ + 1 := by
  unfold pyRoundInt
  split_ifs <;> omega

theorem pyRoundInt_mono {x y : ℚ} (h : x ≤ y) : pyRoundInt x ≤ pyRoundInt y := by
  have hf : ⌊x⌋ ≤ ⌊y⌋ := Int.floor_le_floor h
  rcases eq_or_lt_of_le hf with heq | hlt
  · unfold pyRoundInt
    rw [← heq]
    have hxy : x - ⌊x⌋ ≤ y - ⌊x⌋ := by linarith
    split_ifs <;> first | omega | linarith
  · calc pyRoundInt x ≤ ⌊x⌋ + 1 := pyRoundInt_le_floor_add_one x
      _ ≤ ⌊y⌋ := by omega
      _ ≤ pyRoundInt y := floor_le_pyRoundInt y

theorem pyRoundInt_intCast (n : ℤ) : pyRoundInt (n : ℚ) = n := by
  unfold pyRoundInt
  rw [Int.floor_intCast]
  split_ifs with h1 h2 <;> [rfl; skip; rfl; skip] <;> [exact absurd (by push_cast; linarith : (n : ℚ) - n < 1/2) h1; exact absurd (by push_cast; linarith : (n : ℚ) - n < 1/2) h1]

theorem pyRound0_eq (x : ℚ) : pyRound0 x = (pyRoundInt x : ℚ) := by
  simp [pyRound0, pyRoundTo]

theorem pyRound0_mono {x y : ℚ} (h : x ≤ y) : pyRound0 x ≤ pyRound0 y := by
  rw [pyRound0_eq, pyRound0_eq]
  exact_mod_cast pyRoundInt_mono h

theorem pyRound0_le_intCast {x : ℚ} {n : ℤ} (h : x ≤ (n : ℚ)) : pyRound0 x ≤ (n : ℚ) := by
  calc pyRound0 x ≤ pyRound0 (n : ℚ) := pyRound0_mono h
    _ = (n : ℚ) := by rw [pyRound0_eq, pyRoundInt_intCast]

/-! ### Helper lemmas: the greedy selection loop -/

theorem calSum_append (l₁ l₂ : List DishWithStomachImpact) :
    calSum (l₁ ++ l₂) = calSum l₁ + calSum l₂ := by
  simp [calSum]

theorem volSum_append (l₁ l₂ : List DishWithStomachImpact) :
    volSum (l₁ ++ l₂) = volSum l₁ + volSum l₂ := by
  simp [volSum]

/-- The greedy loop only appends: its output extends the initial selection by
a subsequence of the dishes it scans, in scan order. -/
theorem greedyAcc_sublist (limit cap : ℚ) :
    ∀ (scored : List (ℚ × DishWithStomachImpact)) (sel : List DishWithStomachImpact)
      (tc tv : ℚ),
      ∃ picks, (greedyAcc limit cap scored (sel, tc, tv)).1 = sel ++ picks ∧
        picks.Sublist (scored.map (·.2))
  | [], sel, tc, tv => ⟨[], by simp [greedyAcc], List.nil_sublist _⟩
  | (s, d) :: rest, sel, tc, tv => by
    rw [greedyAcc]
    split
    · obtain ⟨picks, hp, hs⟩ :=
        greedyAcc_sublist limit cap rest (sel ++ [d]) (tc + dishCalories d)
          (tv + d.stomach_impact.volume_ml)
      exact ⟨d :: picks, by simpa using hp, by simpa using hs.cons₂ d⟩
    · obtain ⟨picks, hp, hs⟩ := greedyAcc_sublist limit cap rest sel tc tv
      exact ⟨picks, hp, hs.cons d⟩

/-- Running totals of the greedy loop stay equal to the sums over the selected
list. -/
theorem greedyAcc_sums (limit cap : ℚ) :
    ∀ (scored : List (ℚ × DishWithStomachImpact)) (sel : List DishWithStomachImpact)
      (tc tv : ℚ), tc = calSum sel → tv = volSum sel →
      (greedyAcc limit cap scored (sel, tc, tv)).2.1 =
          calSum (greedyAcc limit cap scored (sel, tc, tv)).1 ∧
        (greedyAcc limit cap scored (sel, tc, tv)).2.2 =
          volSum (greedyAcc limit cap scored (sel, tc, tv)).1
  | [], sel, tc, tv, hc, hv => by simp [greedyAcc, hc, hv]
  | (s, d) :: rest, sel, tc, tv, hc, hv => by
    rw [greedyAcc]
    split
    · exact greedyAcc_sums limit cap rest (sel ++ [d]) _ _
        (by simp [calSum_append, hc, calSum, dishCalories])
        (by simp [volSum_append, hv, volSum])
    · exact greedyAcc_sums limit cap rest sel tc tv hc hv

/-- Both running totals stay below their (zero-clamped) bounds. -/
theorem greedyAcc_bounds (limit cap : ℚ) :
    ∀ (scored : List (ℚ × DishWithStomachImpact)) (sel : List DishWithStomachImpact)
      (tc tv : ℚ), tc ≤ max limit 0 → tv ≤ max (cap * (11/10)) 0 →
      (greedyAcc limit cap scored (sel, tc, tv)).2.1 ≤ max limit 0 ∧
        (greedyAcc limit cap scored (sel, tc, tv)).2.2 ≤ max (cap * (11/10)) 0
  | [], sel, tc, tv, hc, hv => by rw [greedyAcc]; exact ⟨hc, hv⟩
  | (s, d) :: rest, sel, tc, tv, hc, hv => by
    rw [greedyAcc]
    split
    · next h =>
      exact greedyAcc_bounds limit cap rest (sel ++ [d]) _ _
        (le_trans h.1 (le_max_left _ _)) (le_trans h.2 (le_max_left _ _))
    · exact greedyAcc_bounds limit cap rest sel tc tv hc hv

/-- `sortedScored` is a permutation of its input dish list (projecting away
the scores). -/
theorem sortedScored_perm (dishes : List DishWithStomachImpact) (goal : String) :
    ((sortedScored dishes goal).map (·.2)).Perm dishes := by
  rw [sortedScored]
  refine ((List.perm_insertionSort
    (fun a b : ℚ × DishWithStomachImpact => -a.1 ≤ -b.1)
    (dishes.map fun d => (goalReward d goal, d))).map
      (fun x : ℚ × DishWithStomachImpact => x.2)).trans ?_
  have h : List.map ((fun x : ℚ × DishWithStomachImpact => x.2) ∘
      fun d => (goalReward d goal, d)) dishes = dishes := by
    simp [Function.comp_def]
  rw [List.map_map, h]

theorem greedyOrder_perm (dishes : List DishWithStomachImpact) (goal : String)
    (allergies dietary_filters : List String) :
    (greedyOrder dishes goal allergies dietary_filters).Perm
      (filteredInput dishes allergies dietary_filters) :=
  sortedScored_perm _ _

/-- The selected output is a subsequence of the score-sorted scan order. -/
theorem optProcess_selected_sublist (dishes : List DishWithStomachImpact) (goal : String)
    (allergies dietary_filters : List String) (limit cap : ℚ) :
    (optProcess dishes goal allergies dietary_filters limit cap).1.Sublist
      (greedyOrder dishes goal allergies dietary_filters) := by
  rw [optProcess, greedyOrder]
  split
  · exact List.nil_sublist _
  · obtain ⟨picks, hp, hs⟩ := greedyAcc_sublist limit cap
      (sortedScored (filteredInput dishes allergies dietary_filters) goal) [] 0 0
    simp only
    rw [hp]
    simpa using hs

theorem optProcess_selected_subset {dishes : List DishWithStomachImpact} {goal : String}
    {allergies dietary_filters : List String} {limit cap : ℚ}
    {d : DishWithStomachImpact}
    (h : d ∈ (optProcess dishes goal allergies dietary_filters limit cap).1) :
    d ∈ filteredInput dishes allergies dietary_filters :=
  (greedyOrder_perm dishes goal allergies dietary_filters).mem_iff.mp
    ((optProcess_selected_sublist dishes goal allergies dietary_filters limit cap).mem h)

theorem optProcess_skip_subset {dishes : List DishWithStomachImpact} {goal : String}
    {allergies dietary_filters : List String} {limit cap : ℚ}
    {d : DishWithStomachImpact}
    (h : d ∈ (optProcess dishes goal allergies dietary_filters limit cap).2) :
    d ∈ filteredInput dishes allergies dietary_filters := by
  rw [optProcess] at h
  split at h
  · simp at h
  · simp only [List.mem_filter] at h
    exact h.1

/-! ### Helper lemmas: filtering and the selected/skip partition -/

theorem filterDietary_sublist (dishes : List DishWithStomachImpact)
    (filters : List String) : (filterDietary dishes filters).Sublist dishes := by
  simp only [filterDietary]
  split_ifs <;> first | exact List.Sublist.refl _ | exact List.filter_sublist _

/-- `optProcess` on an input that is empty after filtering. -/
theorem optProcess_eq_empty {dishes : List DishWithStomachImpact} {goal : String}
    {allergies dietary_filters : List String} {limit cap : ℚ}
    (h : (filteredInput dishes allergies dietary_filters).isEmpty = true) :
    optProcess dishes goal allergies dietary_filters limit cap = ([], []) := by
  rw [optProcess, if_pos h]

/-- `optProcess` on an input that is nonempty after filtering. -/
theorem optProcess_eq_of_ne_empty {dishes : List DishWithStomachImpact} {goal : String}
    {allergies dietary_filters : List String} {limit cap : ℚ}
    (h : ¬(filteredInput dishes allergies dietary_filters).isEmpty = true) :
    optProcess dishes goal allergies dietary_filters limit cap =
      (greedySelected dishes goal allergies dietary_filters limit cap,
        (filteredInput dishes allergies dietary_filters).filter
          (fun d => !(decide (d ∈ greedySelected dishes goal allergies dietary_filters limit cap)))) := by
  rw [optProcess, if_neg h, greedySelected]

/-- A dish whose lower-cased name contains a given allergen keyword is removed
by the allergy filter. -/
theorem not_mem_filterAllergies {dishes : List DishWithStomachImpact}
    {allergies : List String} {a : String} {d : DishWithStomachImpact}
    (ha : a ∈ allergies)
    (hkw : strContains (pyLower d.name) (pyLower a) = true) :
    d ∉ filterAllergies dishes allergies := by
  intro hd
  rw [filterAllergies] at hd
  rw [if_neg (by simpa using List.ne_nil_of_mem ha)] at hd
  have hpred := List.of_mem_filter hd
  simp only [Bool.not_eq_true', List.any_eq_false] at hpred
  exact absurd hkw (by simpa using hpred (pyLower a) (List.mem_map_of_mem pyLower ha))

/-- Every dish surviving the combined filter survives the allergy filter. -/
theorem filteredInput_subset_filterAllergies {dishes : List DishWithStomachImpact}
    {allergies dietary_filters : List String} {d : DishWithStomachImpact}
    (h : d ∈ filteredInput dishes allergies dietary_filters) :
    d ∈ filterAllergies dishes allergies :=
  (filterDietary_sublist _ _).subset h

/-- `selected` and `skip` never share a dish. -/
theorem optProcess_disjoint (dishes : List DishWithStomachImpact) (goal : String)
    (allergies dietary_filters : List String) (limit cap : ℚ)
    (d : DishWithStomachImpact)
    (hsel : d ∈ (optProcess dishes goal allergies dietary_filters limit cap).1) :
    d ∉ (optProcess dishes goal allergies dietary_filters limit cap).2 := by
  intro hskip
  by_cases hc : (filteredInput dishes allergies dietary_filters).isEmpty = true
  · rw [optProcess_eq_empty hc] at hsel
    simp at hsel
  · rw [optProcess_eq_of_ne_empty hc] at hsel hskip
    have := List.of_mem_filter hskip
    simp only [Bool.not_eq_true', decide_eq_false_iff_not] at this
    exact this hsel

/-- Every filtered dish lands in `selected` or in `skip`. -/
theorem optProcess_cover (dishes : List DishWithStomachImpact) (goal : String)
    (allergies dietary_filters : List String) (limit cap : ℚ)
    (d : DishWithStomachImpact)
    (hd : d ∈ filteredInput dishes allergies dietary_filters) :
    d ∈ (optProcess dishes goal allergies dietary_filters limit cap).1 ∨
      d ∈ (optProcess dishes goal allergies dietary_filters limit cap).2 := by
  by_cases hc : (filteredInput dishes allergies dietary_filters).isEmpty = true
  · rw [List.isEmpty_iff] at hc
    rw [hc] at hd
    simp at hd
  · rw [optProcess_eq_of_ne_empty hc]
    by_cases hsel : d ∈ greedySelected dishes goal allergies dietary_filters limit cap
    · exact Or.inl hsel
    · refine Or.inr (List.mem_filter.mpr ⟨hd, ?_⟩)
      simpa using hsel

/-- With a duplicate-free filtered input, `selected ++ skip` is a permutation
of the filtered input. -/
theorem optProcess_perm_of_nodup (dishes : List DishWithStomachImpact) (goal : String)
    (allergies dietary_filters : List String) (limit cap : ℚ)
    (hnd : (filteredInput dishes allergies dietary_filters).Nodup) :
    ((optProcess dishes goal allergies dietary_filters limit cap).1 ++
      (optProcess dishes goal allergies dietary_filters limit cap).2).Perm
      (filteredInput dishes allergies dietary_filters) := by
  have hndsel : (optProcess dishes goal allergies dietary_filters limit cap).1.Nodup :=
    (optProcess_selected_sublist dishes goal allergies dietary_filters limit cap).nodup
      ((greedyOrder_perm dishes goal allergies dietary_filters).nodup_iff.mpr hnd)
  rw [List.perm_iff_count]
  intro a
  rw [List.count_append]
  by_cases hsel : a ∈ (optProcess dishes goal allergies dietary_filters limit cap).1
  · have h1 := List.count_eq_one_of_mem hndsel hsel
    have h2 : (optProcess dishes goal allergies dietary_filters limit cap).2.count a = 0 :=
      List.count_eq_zero.mpr
        (optProcess_disjoint dishes goal allergies dietary_filters limit cap a hsel)
    have h3 := List.count_eq_one_of_mem hnd (optProcess_selected_subset hsel)
    omega
  · have h1 : (optProcess dishes goal allergies dietary_filters limit cap).1.count a = 0 :=
      List.count_eq_zero.mpr hsel
    have h2 : (optProcess dishes goal allergies dietary_filters limit cap).2.count a =
        (filteredInput dishes allergies dietary_filters).count a := by
      by_cases hc : (filteredInput dishes allergies dietary_filters).isEmpty = true
      · rw [optProcess_eq_empty hc]
        rw [List.isEmpty_iff] at hc
        simp [hc]
      · rw [optProcess_eq_of_ne_empty hc] at hsel ⊢
        refine List.count_filter ?_
        simpa using hsel
    omega

/-! ### Helper lemmas: portion sizing -/

/-- The portion computed by `_compute_portion` always lies in `[20, 250]` and
never exceeds `max 20 (round(estimated_grams))`. -/
theorem computePortion_bounds (dish : DishWithStomachImpact) (cal_rem vol_rem : ℚ) :
    20 ≤ (computePortion dish cal_rem vol_rem).1 ∧
      (computePortion dish cal_rem vol_rem).1 ≤ 250 ∧
      (computePortion dish cal_rem vol_rem).1 ≤ max 20 (pyRound0 dish.estimated_grams) := by
  simp only [computePortion]
  refine ⟨le_max_left _ _, ?_, ?_⟩
  · refine max_le (by norm_num) ?_
    have hm : min (min (min dish.estimated_grams
        (if dish.nutrition_per_100g.calories > 0 then
          cal_rem / dish.nutrition_per_100g.calories * 100 else 500))
        (if (if dish.estimated_grams ≠ 0 then
              dish.stomach_impact.volume_ml / (dish.estimated_grams / 100) else 100) > 0 then
          vol_rem / (if dish.estimated_grams ≠ 0 then
              dish.stomach_impact.volume_ml / (dish.estimated_grams / 100) else 100) * 100
          else 500)) 250 ≤ ((250 : ℤ) : ℚ) := by
      push_cast
      exact min_le_right _ _
    have := pyRound0_le_intCast hm
    push_cast at this
    exact this
  · refine max_le_max le_rfl (pyRound0_mono ?_)
    exact le_trans (min_le_left _ _) (le_trans (min_le_left _ _) (min_le_left _ _))

/-! ### Helper lemmas: the planner's phases -/

/-- The names of the items built for one phase are exactly the names of its
dishes, in order. -/
theorem buildItems_names (calorie_limit : ℚ) :
    ∀ (dishes : List DishWithStomachImpact) (tc sv : ℚ),
      ((buildItems calorie_limit dishes tc sv).1.map (·.dish_name)) =
        dishes.map (·.name)
  | [], tc, sv => by simp [buildItems]
  | d :: rest, tc, sv => by
    rw [buildItems]
    simpa using buildItems_names calorie_limit rest _ _

/-- Every item built for a phase has a portion in `[20, 250]` grams. -/
theorem buildItems_portion_bounds (calorie_limit : ℚ) :
    ∀ (dishes : List DishWithStomachImpact) (tc sv : ℚ) (it : PhaseItem),
      it ∈ (buildItems calorie_limit dishes tc sv).1 →
        20 ≤ it.portion_grams ∧ it.portion_grams ≤ 250
  | [], tc, sv, it, h => by simp [buildItems] at h
  | d :: rest, tc, sv, it, h => by
    rw [buildItems] at h
    rcases List.mem_cons.mp h with heq | hmem
    · subst heq
      exact ⟨(computePortion_bounds d _ _).1, (computePortion_bounds d _ _).2.1⟩
    · exact buildItems_portion_bounds calorie_limit rest _ _ it hmem

/-- Every item of a built phase has a portion in `[20, 250]` grams, and the
portion never exceeds `max 20 (round(mass))` of its dish. -/
theorem buildPhases_portion_bounds (calorie_limit : ℚ) :
    ∀ (groups : List (String × List DishWithStomachImpact)) (tc sv : ℚ)
      (p : PhaseOut), p ∈ (buildPhases calorie_limit groups tc sv).1 →
      ∀ it ∈ p.items, 20 ≤ it.portion_grams ∧ it.portion_grams ≤ 250
  | [], tc, sv, p, hp => by simp [buildPhases] at hp
  | (k, ds) :: rest, tc, sv, p, hp => by
    rw [buildPhases] at hp
    rcases List.mem_cons.mp hp with heq | hmem
    · subst heq
      intro it hit
      exact buildItems_portion_bounds calorie_limit ds _ _ it hit
    · exact buildPhases_portion_bounds calorie_limit rest _ _ p hmem

/-- Shape of the built phases: orders come from `phaseOrderOf` of the group
key, item names from the group's dishes. -/
theorem buildPhases_shape (calorie_limit : ℚ) :
    ∀ (groups : List (String × List DishWithStomachImpact)) (tc sv : ℚ),
      ((buildPhases calorie_limit groups tc sv).1.map
          (fun p => (p.phase_order, p.items.map (·.dish_name)))) =
        groups.map (fun g => (phaseOrderOf g.1, g.2.map (·.name)))
  | [], tc, sv => by simp [buildPhases]
  | (k, ds) :: rest, tc, sv => by
    rw [buildPhases]
    simpa [buildItems_names] using buildPhases_shape calorie_limit rest _ _

/-- A built phase of a nonempty group is nonempty. -/
theorem buildPhases_items_ne_nil (calorie_limit : ℚ) :
    ∀ (groups : List (String × List DishWithStomachImpact)) (tc sv : ℚ),
      (∀ g ∈ groups, g.2 ≠ []) →
      ∀ p ∈ (buildPhases calorie_limit groups tc sv).1, p.items ≠ []
  | [], tc, sv, hne, p, hp => by simp [buildPhases] at hp
  | (k, ds) :: rest, tc, sv, hne, p, hp => by
    rw [buildPhases] at hp
    rcases List.mem_cons.mp hp with heq | hmem
    · subst heq
      intro hnil
      have hnil' : (buildItems calorie_limit ds tc sv).1 = [] := hnil
      have hn := buildItems_names calorie_limit ds tc sv
      rw [hnil'] at hn
      exact hne (k, ds) (List.mem_cons_self _ _) (List.map_eq_nil_iff.mp hn.symm)
    · exact buildPhases_items_ne_nil calorie_limit rest _ _
        (fun g hg => hne g (List.mem_cons_of_mem _ hg)) p hmem

/-! ### Helper lemmas: phase grouping -/

/-- `_classify_phase` only produces the five known phase names. -/
theorem classifyPhase_mem (d : DishWithStomachImpact) :
    classifyPhase d ∈ phaseNamesList := by
  rw [classifyPhase]
  split_ifs <;> simp [phaseNamesList]

/-- `_phase_order` is injective on the five phase names. -/
theorem phaseOrderOf_inj {k₁ k₂ : String} (h₁ : k₁ ∈ phaseNamesList)
    (h₂ : k₂ ∈ phaseNamesList) (h : phaseOrderOf k₁ = phaseOrderOf k₂) : k₁ = k₂ := by
  simp only [phaseNamesList, List.mem_cons, List.mem_singleton, List.not_mem_nil,
    or_false] at h₁ h₂
  rcases h₁ with rfl | rfl | rfl | rfl | rfl <;>
    rcases h₂ with rfl | rfl | rfl | rfl | rfl <;>
    simp_all [phaseOrderOf]

theorem addToGroups_keys (k : String) (d : DishWithStomachImpact) :
    ∀ gs : List (String × List DishWithStomachImpact),
      (addToGroups gs k d).map (·.1) =
        if k ∈ gs.map (·.1) then gs.map (·.1) else gs.map (·.1) ++ [k]
  | [] => by simp [addToGroups]
  | (k', ds) :: rest => by
    rw [addToGroups]
    by_cases hk : k' = k
    · subst hk
      rw [if_pos rfl, if_pos (by simp)]
      simp
    · rw [if_neg hk]
      simp only [List.map_cons, addToGroups_keys k d rest]
      by_cases hm : k ∈ rest.map (·.1)
      · rw [if_pos hm, if_pos (List.mem_cons_of_mem _ hm)]
      · rw [if_neg hm, if_neg (by simp [hm, Ne.symm hk])]
        simp

theorem addToGroups_flatten_perm (k : String) (d : DishWithStomachImpact) :
    ∀ gs : List (String × List DishWithStomachImpact),
      ((addToGroups gs k d).map (·.2)).flatten.Perm
        (((gs.map (·.2)).flatten) ++ [d])
  | [] => by simp [addToGroups]
  | (k', ds) :: rest => by
    rw [addToGroups]
    by_cases hk : k' = k
    · subst hk
      rw [if_pos rfl]
      simp only [List.map_cons, List.flatten_cons, List.append_assoc]
      exact List.Perm.append_left ds List.perm_append_comm
    · rw [if_neg hk]
      simp only [List.map_cons, List.flatten_cons, List.append_assoc]
      exact List.Perm.append_left ds (addToGroups_flatten_perm k d rest)

theorem addToGroups_nonempty (k : String) (d : DishWithStomachImpact) :
    ∀ gs : List (String × List DishWithStomachImpact),
      (∀ g ∈ gs, g.2 ≠ []) → ∀ g ∈ addToGroups gs k d, g.2 ≠ []
  | [], _, g, hg => by
    simp only [addToGroups, List.mem_singleton] at hg
    subst hg
    simp
  | (k', ds) :: rest, hne, g, hg => by
    rw [addToGroups] at hg
    by_cases hk : k' = k
    · subst hk
      rw [if_pos rfl] at hg
      rcases List.mem_cons.mp hg with rfl | hmem
      · simp
      · exact hne g (List.mem_cons_of_mem _ hmem)
    · rw [if_neg hk] at hg
      rcases List.mem_cons.mp hg with rfl | hmem
      · exact hne (k', ds) (List.mem_cons_self _ _)
      · exact addToGroups_nonempty k d rest
          (fun g hg => hne g (List.mem_cons_of_mem _ hg)) g hmem

theorem addToGroups_keys_mem (k : String) (d : DishWithStomachImpact)
    (hk : k ∈ phaseNamesList) :
    ∀ gs : List (String × List DishWithStomachImpact),
      (∀ g ∈ gs, g.1 ∈ phaseNamesList) → ∀ g ∈ addToGroups gs k d, g.1 ∈ phaseNamesList
  | [], _, g, hg => by
    simp only [addToGroups, List.mem_singleton] at hg
    subst hg
    exact hk
  | (k', ds) :: rest, hmem, g, hg => by
    rw [addToGroups] at hg
    by_cases hkk : k' = k
    · subst hkk
      rw [if_pos rfl] at hg
      rcases List.mem_cons.mp hg with rfl | h
      · exact hmem (k', ds) (List.mem_cons_self _ _)
      · exact hmem g (List.mem_cons_of_mem _ h)
    · rw [if_neg hkk] at hg
      rcases List.mem_cons.mp hg with rfl | h
      · exact hmem (k', ds) (List.mem_cons_self _ _)
      · exact addToGroups_keys_mem k d hk rest
          (fun g hg => hmem g (List.mem_cons_of_mem _ hg)) g h

/-- Flattening the phase groups recovers the selected dishes (as a multiset). -/
theorem phaseGroups_flatten_perm :
    ∀ (sel : List DishWithStomachImpact) (gs : List (String × List DishWithStomachImpact)),
      ((sel.foldl (fun gs d => addToGroups gs (classifyPhase d) d) gs).map (·.2)).flatten.Perm
        (((gs.map (·.2)).flatten) ++ sel)
  | [], gs => by simp
  | d :: sel, gs => by
    rw [List.foldl_cons]
    refine (phaseGroups_flatten_perm sel _).trans ?_
    have h := (addToGroups_flatten_perm (classifyPhase d) d gs).append_right sel
    refine h.trans ?_
    simp

/-- The group keys stay duplicate-free. -/
theorem phaseGroups_keys_nodup :
    ∀ (sel : List DishWithStomachImpact) (gs : List (String × List DishWithStomachImpact)),
      (gs.map (·.1)).Nodup →
      ((sel.foldl (fun gs d => addToGroups gs (classifyPhase d) d) gs).map (·.1)).Nodup
  | [], gs, h => h
  | d :: sel, gs, h => by
    rw [List.foldl_cons]
    refine phaseGroups_keys_nodup sel _ ?_
    rw [addToGroups_keys]
    by_cases hc : classifyPhase d ∈ gs.map (·.1)
    · rw [if_pos hc]
      exact h
    · rw [if_neg hc]
      refine List.Nodup.append h (List.nodup_singleton _) ?_
      intro a ha hb
      simp only [List.mem_singleton] at hb
      subst hb
      exact hc ha

/-- All groups stay nonempty. -/
theorem phaseGroups_nonempty :
    ∀ (sel : List DishWithStomachImpact) (gs : List (String × List DishWithStomachImpact)),
      (∀ g ∈ gs, g.2 ≠ []) →
      ∀ g ∈ sel.foldl (fun gs d => addToGroups gs (classifyPhase d) d) gs, g.2 ≠ []
  | [], gs, h => h
  | d :: sel, gs, h => by
    rw [List.foldl_cons]
    exact phaseGroups_nonempty sel _ (addToGroups_nonempty _ _ gs h)

/-- All group keys are known phase names. -/
theorem phaseGroups_keys_mem :
    ∀ (sel : List DishWithStomachImpact) (gs : List (String × List DishWithStomachImpact)),
      (∀ g ∈ gs, g.1 ∈ phaseNamesList) →
      ∀ g ∈ sel.foldl (fun gs d => addToGroups gs (classifyPhase d) d) gs,
        g.1 ∈ phaseNamesList
  | [], gs, h => h
  | d :: sel, gs, h => by
    rw [List.foldl_cons]
    exact phaseGroups_keys_mem sel _
      (addToGroups_keys_mem _ _ (classifyPhase_mem d) gs h)

/-! ### Helper lemmas: the emitted phase list -/

theorem buildPhases_orders (calorie_limit : ℚ) :
    ∀ (groups : List (String × List DishWithStomachImpact)) (tc sv : ℚ),
      ((buildPhases calorie_limit groups tc sv).1.map (·.phase_order)) =
        groups.map (fun g => phaseOrderOf g.1)
  | [], tc, sv => by simp [buildPhases]
  | (k, ds) :: rest, tc, sv => by
    rw [buildPhases]
    simpa using buildPhases_orders calorie_limit rest _ _

theorem buildPhases_names (calorie_limit : ℚ) :
    ∀ (groups : List (String × List DishWithStomachImpact)) (tc sv : ℚ),
      ((buildPhases calorie_limit groups tc sv).1.map
          (fun p => p.items.map (·.dish_name))) =
        groups.map (fun g => g.2.map (·.name))
  | [], tc, sv => by simp [buildPhases]
  | (k, ds) :: rest, tc, sv => by
    rw [buildPhases]
    simpa [buildItems_names] using buildPhases_names calorie_limit rest _ _

/-- The phases field of the planner's output, explicitly. -/
theorem strategyProcess_phases_eq (selected_dishes skip_dishes : List DishWithStomachImpact)
    (goal : String) (calorie_limit : ℚ) :
    (strategyProcess selected_dishes skip_dishes goal calorie_limit).1.phases =
      ((buildPhases calorie_limit (sortedPhaseGroups selected_dishes) 0 0).1).insertionSort
        (fun a b => a.phase_order ≤ b.phase_order) := rfl

/-- The skip field of the planner's output, explicitly. -/
theorem strategyProcess_skip_eq (selected_dishes skip_dishes : List DishWithStomachImpact)
    (goal : String) (calorie_limit : ℚ) :
    (strategyProcess selected_dishes skip_dishes goal calorie_limit).1.skip =
      skip_dishes.map (fun d =>
        { name := d.name
          reason := "Lower priority for goal or exceeded volume/calorie limit" }) := rfl

/-- The emitted phases are sorted by their phase order. -/
theorem strategyProcess_sorted (selected_dishes skip_dishes : List DishWithStomachImpact)
    (goal : String) (calorie_limit : ℚ) :
    List.Sorted (fun p q : PhaseOut => p.phase_order ≤ q.phase_order)
      (strategyProcess selected_dishes skip_dishes goal calorie_limit).1.phases := by
  rw [strategyProcess_phases_eq]
  haveI : IsTotal PhaseOut (fun p q : PhaseOut => p.phase_order ≤ q.phase_order) :=
    ⟨fun a b => le_total _ _⟩
  haveI : IsTrans PhaseOut (fun p q : PhaseOut => p.phase_order ≤ q.phase_order) :=
    ⟨fun a b c => le_trans⟩
  exact List.sorted_insertionSort _ _

/-- The emitted phases carry pairwise distinct phase orders. -/
theorem strategyProcess_orders_nodup (selected_dishes skip_dishes : List DishWithStomachImpact)
    (goal : String) (calorie_limit : ℚ) :
    ((strategyProcess selected_dishes skip_dishes goal calorie_limit).1.phases.map
      (·.phase_order)).Nodup := by
  rw [strategyProcess_phases_eq]
  have hperm : (((buildPhases calorie_limit (sortedPhaseGroups selected_dishes) 0 0).1).insertionSort
      (fun a b => a.phase_order ≤ b.phase_order)).Perm
      (buildPhases calorie_limit (sortedPhaseGroups selected_dishes) 0 0).1 :=
    List.perm_insertionSort _ _
  rw [(hperm.map (·.phase_order)).nodup_iff]
  rw [buildPhases_orders]
  have hkeys : (sortedPhaseGroups selected_dishes).map (fun g => phaseOrderOf g.1) =
      ((sortedPhaseGroups selected_dishes).map (·.1)).map phaseOrderOf := by
    rw [List.map_map]
    rfl
  rw [hkeys]
  have hpermk : ((sortedPhaseGroups selected_dishes).map (·.1)).Perm
      ((phaseGroups selected_dishes).map (·.1)) :=
    (List.perm_insertionSort _ _).map _
  rw [(hpermk.map phaseOrderOf).nodup_iff]
  have hnd : ((phaseGroups selected_dishes).map (·.1)).Nodup :=
    phaseGroups_keys_nodup selected_dishes [] (by simp)
  refine hnd.map_on ?_
  intro x hx y hy hxy
  have hxmem : x ∈ phaseNamesList := by
    obtain ⟨g, hg, rfl⟩ := List.mem_map.mp hx
    exact phaseGroups_keys_mem selected_dishes [] (by simp) g hg
  have hymem : y ∈ phaseNamesList := by
    obtain ⟨g, hg, rfl⟩ := List.mem_map.mp hy
    exact phaseGroups_keys_mem selected_dishes [] (by simp) g hg
  exact phaseOrderOf_inj hxmem hymem hxy

/-- The dish names across all emitted phases are a permutation of the
selected dishes' names. -/
theorem strategyProcess_names_perm (selected_dishes skip_dishes : List DishWithStomachImpact)
    (goal : String) (calorie_limit : ℚ) :
    (((strategyProcess selected_dishes skip_dishes goal calorie_limit).1.phases.map
      (fun p => p.items.map (·.dish_name))).flatten).Perm
      (selected_dishes.map (·.name)) := by
  rw [strategyProcess_phases_eq]
  have hperm := (List.perm_insertionSort
    (fun a b : PhaseOut => a.phase_order ≤ b.phase_order)
    (buildPhases calorie_limit (sortedPhaseGroups selected_dishes) 0 0).1).map
      (fun p : PhaseOut => p.items.map (·.dish_name))
  refine hperm.flatten.trans ?_
  rw [buildPhases_names]
  have hgperm : ((sortedPhaseGroups selected_dishes).map
      (fun g => g.2.map (·.name))).Perm
      ((phaseGroups selected_dishes).map (fun g => g.2.map (·.name))) :=
    (List.perm_insertionSort _ _).map _
  refine hgperm.flatten.trans ?_
  have hmapflat : ((phaseGroups selected_dishes).map
      (fun g => g.2.map (·.name))).flatten =
      (((phaseGroups selected_dishes).map (·.2)).flatten).map (·.name) := by
    rw [List.map_flatten, List.map_map]
    rfl
  rw [hmapflat]
  exact (phaseGroups_flatten_perm selected_dishes []).trans (by simp) |>.map _

/-- Every emitted phase is nonempty. -/
theorem strategyProcess_items_ne_nil (selected_dishes skip_dishes : List DishWithStomachImpact)
    (goal : String) (calorie_limit : ℚ) :
    ∀ p ∈ (strategyProcess selected_dishes skip_dishes goal calorie_limit).1.phases,
      p.items ≠ [] := by
  rw [strategyProcess_phases_eq]
  intro p hp
  have hp' : p ∈ (buildPhases calorie_limit (sortedPhaseGroups selected_dishes) 0 0).1 :=
    (List.perm_insertionSort _ _).mem_iff.mp hp
  refine buildPhases_items_ne_nil calorie_limit _ 0 0 ?_ p hp'
  intro g hg
  have : g ∈ phaseGroups selected_dishes :=
    (List.perm_insertionSort _ _).mem_iff.mp hg
  exact phaseGroups_nonempty selected_dishes [] (by simp) g this

/-- Every portion in the emitted plan lies in `[20, 250]` grams. -/
theorem strategyProcess_portion_bounds (selected_dishes skip_dishes : List DishWithStomachImpact)
    (goal : String) (calorie_limit : ℚ) :
    ∀ p ∈ (strategyProcess selected_dishes skip_dishes goal calorie_limit).1.phases,
      ∀ it ∈ p.items, 20 ≤ it.portion_grams ∧ it.portion_grams ≤ 250 := by
  rw [strategyProcess_phases_eq]
  intro p hp
  have hp' : p ∈ (buildPhases calorie_limit (sortedPhaseGroups selected_dishes) 0 0).1 :=
    (List.perm_insertionSort _ _).mem_iff.mp hp
  exact buildPhases_portion_bounds calorie_limit _ 0 0 p hp'

/-- Every item name in the plan is the name of a selected dish. -/
theorem strategyProcess_item_name_mem {selected_dishes skip_dishes : List DishWithStomachImpact}
    {goal : String} {calorie_limit : ℚ} {p : PhaseOut} {it : PhaseItem}
    (hp : p ∈ (strategyProcess selected_dishes skip_dishes goal calorie_limit).1.phases)
    (hit : it ∈ p.items) : it.dish_name ∈ selected_dishes.map (·.name) := by
  refine (strategyProcess_names_perm selected_dishes skip_dishes goal calorie_limit).mem_iff.mp ?_
  rw [List.mem_flatten]
  exact ⟨p.items.map (·.dish_name), List.mem_map_of_mem _ hp, List.mem_map_of_mem _ hit⟩

/-! ### Helper lemmas: nutrition lookup and allergen keywords -/

/-- When neither lookup tier matches, `_lookup` returns the default profile. -/
theorem dbLookup_of_noMatch {dish_name : String} (h : dbNoMatch dish_name = true) :
    dbLookup dish_name = fallbackRow := by
  rw [dbNoMatch, Bool.and_eq_true, Option.isNone_iff_eq_none, Option.isNone_iff_eq_none] at h
  rw [dbLookup]
  simp only [h.1, h.2]

/-- Every dish surviving the allergy filter is free of each allergen keyword. -/
theorem filterAllergies_no_kw {dishes : List DishWithStomachImpact}
    {allergies : List String} {a : String} {d : DishWithStomachImpact}
    (ha : a ∈ allergies) (hd : d ∈ filterAllergies dishes allergies) :
    strContains (pyLower d.name) (pyLower a) = false := by
  rw [filterAllergies, if_neg (by simpa using List.ne_nil_of_mem ha)] at hd
  have hpred := List.of_mem_filter hd
  simp only [Bool.not_eq_true', List.any_eq_false] at hpred
  simpa using hpred (pyLower a) (List.mem_map_of_mem pyLower ha)

/-! ### Claim theorems -/

/-- C8: for every item, the StomachModel's satiety score equals
`protein*2.0 + fiber*3.0 + (100 / max(calories,10))*100 - fat*0.5`, floored
at 0, and in particular is never negative. -/
theorem claim8_satiety_formula (dish : DishWithNutrition) :
    satietyScore dish =
      max 0 (dish.nutrition_per_100g.protein * 2 + dish.nutrition_per_100g.fiber * 3 +
        100 / max dish.nutrition_per_100g.calories 10 * 100 -
        dish.nutrition_per_100g.fat * (1/2)) ∧
    0 ≤ satietyScore dish := by
  have hpos : (0:ℚ) < max dish.nutrition_per_100g.calories 10 :=
    lt_of_lt_of_le (by norm_num) (le_max_right _ _)
  constructor
  · simp only [satietyScore, if_pos hpos]
    congr 1
    rw [div_div_eq_mul_div, div_mul_eq_mul_div]
  · simp only [satietyScore]
    exact le_max_left _ _

/-- C9: the post-detection pipeline is deterministic — on equal item lists,
goal, calorie limit, allergen list and dietary filters it returns equal
structured results (it is a pure function of its inputs). -/
theorem claim9_deterministic (d₁ d₂ : List DetectedDish) (g₁ g₂ : String)
    (l₁ l₂ : Option Int) (a₁ a₂ f₁ f₂ : List String)
    (hd : d₁ = d₂) (hg : g₁ = g₂) (hl : l₁ = l₂) (ha : a₁ = a₂) (hf : f₁ = f₂) :
    runRestOfPipeline d₁ g₁ l₁ a₁ f₁ = runRestOfPipeline d₂ g₂ l₂ a₂ f₂ := by
  subst hd hg hl ha hf
  rfl

/-- C9 witness at a concrete input. -/
theorem claim9_witness :
    runRestOfPipeline [dishXyz] "fat_loss" none [] [] =
      runRestOfPipeline [dishXyz] "fat_loss" none [] [] :=
  claim9_deterministic [dishXyz] [dishXyz] "fat_loss" "fat_loss" none none [] [] [] []
    rfl rfl rfl rfl rfl

/-- C1 (amended): an item that would breach a running bound is skipped
permanently, and the single pass continues in score order — the selected
list is always a subsequence of the score-sorted scan order (it need not be
a prefix: later items can still be accepted after a rejection). -/
theorem claim1_selected_subsequence (dishes : List DishWithStomachImpact) (goal : String)
    (allergies dietary_filters : List String) (limit cap : ℚ) :
    (optProcess dishes goal allergies dietary_filters limit cap).1.Sublist
      (greedyOrder dishes goal allergies dietary_filters) :=
  optProcess_selected_sublist dishes goal allergies dietary_filters limit cap

/-- C6 (amended): the selected calories never exceed `max budget 0` and the
selected volume never exceeds `max (capacity × 1.10) 0`; in particular the
claimed bounds hold whenever budget and capacity are nonnegative. -/
theorem claim6_budget_bounds (dishes : List DishWithStomachImpact) (goal : String)
    (allergies dietary_filters : List String) (limit cap : ℚ) :
    calSum (optProcess dishes goal allergies dietary_filters limit cap).1 ≤ max limit 0 ∧
    volSum (optProcess dishes goal allergies dietary_filters limit cap).1 ≤
      max (cap * (11/10)) 0 := by
  by_cases hc : (filteredInput dishes allergies dietary_filters).isEmpty = true
  · rw [optProcess_eq_empty hc]
    constructor <;> simp [calSum, volSum]
  · rw [optProcess_eq_of_ne_empty hc]
    dsimp only
    rw [greedySelected]
    have hsums := greedyAcc_sums limit cap
      (sortedScored (filteredInput dishes allergies dietary_filters) goal) [] 0 0
      (by simp [calSum]) (by simp [volSum])
    have hbounds := greedyAcc_bounds limit cap
      (sortedScored (filteredInput dishes allergies dietary_filters) goal) [] 0 0
      (le_max_right _ _) (le_max_right _ _)
    exact ⟨hsums.1 ▸ hbounds.1, hsums.2 ▸ hbounds.2⟩

/-- C4 (amended): `selected` and `skipped` are always disjoint and together
cover the filtered input; when the filtered input has no duplicate items they
are an exact partition of it (as a multiset).  (With duplicates, extra copies
of a selected item are dropped from both outputs — see the counterexample.) -/
theorem claim4_partition (dishes : List DishWithStomachImpact) (goal : String)
    (allergies dietary_filters : List String) (limit cap : ℚ) :
    (∀ d ∈ (optProcess dishes goal allergies dietary_filters limit cap).1,
        d ∉ (optProcess dishes goal allergies dietary_filters limit cap).2) ∧
    (∀ d ∈ filteredInput dishes allergies dietary_filters,
        d ∈ (optProcess dishes goal allergies dietary_filters limit cap).1 ∨
        d ∈ (optProcess dishes goal allergies dietary_filters limit cap).2) ∧
    ((filteredInput dishes allergies dietary_filters).Nodup →
      ((optProcess dishes goal allergies dietary_filters limit cap).1 ++
        (optProcess dishes goal allergies dietary_filters limit cap).2).Perm
        (filteredInput dishes allergies dietary_filters)) :=
  ⟨optProcess_disjoint dishes goal allergies dietary_filters limit cap,
   optProcess_cover dishes goal allergies dietary_filters limit cap,
   optProcess_perm_of_nodup dishes goal allergies dietary_filters limit cap⟩

/-- C5 (amended): every planned portion lies in `[20, 250]` grams, and a
portion never exceeds `max 20 (round(estimated mass))` of its dish — so it
can exceed the dish's estimated mass when that mass is below 20 g (the floor)
or when rounding rounds it up. -/
theorem claim5_portion_bounds (selected_dishes skip_dishes : List DishWithStomachImpact)
    (goal : String) (calorie_limit : ℚ) :
    (∀ p ∈ (strategyProcess selected_dishes skip_dishes goal calorie_limit).1.phases,
      ∀ it ∈ p.items, 20 ≤ it.portion_grams ∧ it.portion_grams ≤ 250) ∧
    (∀ (dish : DishWithStomachImpact) (cal_rem vol_rem : ℚ),
      (computePortion dish cal_rem vol_rem).1 ≤ max 20 (pyRound0 dish.estimated_grams)) :=
  ⟨strategyProcess_portion_bounds selected_dishes skip_dishes goal calorie_limit,
   fun dish cal_rem vol_rem => (computePortion_bounds dish cal_rem vol_rem).2.2⟩

/-- C7: every selected item appears in exactly one phase and exactly once (the
item names across phases are a permutation of the selected names); the emitted
phases have strictly increasing phase orders; every emitted phase is
nonempty. -/
theorem claim7_phase_structure (selected_dishes skip_dishes : List DishWithStomachImpact)
    (goal : String) (calorie_limit : ℚ) :
    (((strategyProcess selected_dishes skip_dishes goal calorie_limit).1.phases.map
      (fun p => p.items.map (·.dish_name))).flatten).Perm
      (selected_dishes.map (·.name)) ∧
    List.Chain' (fun p q : PhaseOut => p.phase_order < q.phase_order)
      (strategyProcess selected_dishes skip_dishes goal calorie_limit).1.phases ∧
    ∀ p ∈ (strategyProcess selected_dishes skip_dishes goal calorie_limit).1.phases,
      p.items ≠ [] := by
  refine ⟨strategyProcess_names_perm selected_dishes skip_dishes goal calorie_limit, ?_,
    strategyProcess_items_ne_nil selected_dishes skip_dishes goal calorie_limit⟩
  have hs := strategyProcess_sorted selected_dishes skip_dishes goal calorie_limit
  have hn := strategyProcess_orders_nodup selected_dishes skip_dishes goal calorie_limit
  have hle : ((strategyProcess selected_dishes skip_dishes goal calorie_limit).1.phases.map
      (·.phase_order)).Sorted (· ≤ ·) := List.pairwise_map.mpr hs
  have hlt := hle.lt_of_le hn
  exact (List.pairwise_map.mp hlt).chain'

/-- C2 (amended): an item whose lower-cased name contains an allergen keyword
(case-insensitively) is removed up front: it appears neither in `selected` nor
in `skipped`, and no phase of any plan built from these outputs contains an
item with such a name.  (It does not appear in the final skip list either —
see the counterexample.) -/
theorem claim2_allergen_exclusion (dishes : List DishWithStomachImpact)
    (goal : String) (allergies dietary_filters : List String) (limit cap : ℚ)
    (a : String) (d : DishWithStomachImpact) (ha : a ∈ allergies)
    (hkw : strContains (pyLower d.name) (pyLower a) = true) :
    d ∉ (optProcess dishes goal allergies dietary_filters limit cap).1 ∧
    d ∉ (optProcess dishes goal allergies dietary_filters limit cap).2 ∧
    ∀ (goal₂ : String) (calorie_limit₂ : ℚ),
      ∀ p ∈ (strategyProcess
          (optProcess dishes goal allergies dietary_filters limit cap).1
          (optProcess dishes goal allergies dietary_filters limit cap).2
          goal₂ calorie_limit₂).1.phases,
        ∀ it ∈ p.items, strContains (pyLower it.dish_name) (pyLower a) = false := by
  refine ⟨?_, ?_, ?_⟩
  · intro hsel
    have := filterAllergies_no_kw ha
      (filteredInput_subset_filterAllergies (optProcess_selected_subset hsel))
    rw [hkw] at this
    exact Bool.noConfusion this
  · intro hskip
    have := filterAllergies_no_kw ha
      (filteredInput_subset_filterAllergies (optProcess_skip_subset hskip))
    rw [hkw] at this
    exact Bool.noConfusion this
  · intro goal₂ calorie_limit₂ p hp it hit
    have hname := strategyProcess_item_name_mem hp hit
    obtain ⟨d', hd', hnameeq⟩ := List.mem_map.mp hname
    rw [← hnameeq]
    exact filterAllergies_no_kw ha
      (filteredInput_subset_filterAllergies (optProcess_selected_subset hd'))

/-- C3 (amended): the enricher's confidence takes exactly the two values 0.9
and 0.7 — 0.9 precisely when the lower-cased dish name occurs verbatim in the
serialized reference table (`str(self._db)`), independently of which lookup
tier produced the profile — and every name with no exact or partial table
match receives the generic fallback macro profile.  There is no distinct
"low" tier for fallback profiles. -/
theorem claim3_confidence_tiers (dishes : List DetectedDish) :
    ∀ e ∈ nutritionProcess dishes,
      (e.nutrition_per_100g.confidence = 9/10 ∨ e.nutrition_per_100g.confidence = 7/10) ∧
      e.nutrition_per_100g.confidence =
        (if strContains dbStr (pyLower e.name) then (9:ℚ)/10 else 7/10) ∧
      (dbNoMatch e.name = true →
        e.nutrition_per_100g.calories = fallbackRow.cal ∧
        e.nutrition_per_100g.protein = fallbackRow.protein ∧
        e.nutrition_per_100g.fat = fallbackRow.fat ∧
        e.nutrition_per_100g.carbs = fallbackRow.carbs ∧
        e.nutrition_per_100g.fiber = fallbackRow.fiber ∧
        e.nutrition_per_100g.glycemic_load = fallbackRow.gl) := by
  intro e he
  rw [nutritionProcess] at he
  obtain ⟨d, hd, rfl⟩ := List.mem_map.mp he
  refine ⟨?_, rfl, ?_⟩
  · by_cases hc : strContains dbStr (pyLower d.name) = true
    · exact Or.inl (by simp [hc])
    · exact Or.inr (by simp [hc])
  · intro hnm
    have := dbLookup_of_noMatch hnm
    simp [this]

/-- C10: every manually entered dish gets detection confidence exactly 0.9
(and estimated mass 100 g when omitted), so for a non-empty manual list the
response's `confidence_overall` — the mean of the per-item confidences
rounded to two decimals — is exactly 0.9. -/
theorem claim10_manual_confidence (dishes : List ManualDishInput) (goal : String)
    (calorie_limit : Option Int) (allergies dietary_filters : List String)
    (h : dishes ≠ []) :
    (∀ d ∈ dishes, (detectedDishFromManual d).confidence = 9/10 ∧
      (d.estimated_grams = none → (detectedDishFromManual d).estimated_grams = 100)) ∧
    (runPipelineManual dishes goal calorie_limit allergies dietary_filters).confidence_overall =
      9/10 := by
  constructor
  · intro d hd
    exact ⟨rfl, fun hnone => by simp [detectedDishFromManual, hnone]⟩
  · have hlen : dishes.length ≠ 0 := fun hl => h (List.length_eq_zero.mp hl)
    have hne : ((dishes.map detectedDishFromManual).isEmpty) = false := by
      cases dishes with
      | nil => exact absurd rfl h
      | cons d rest => simp
    rw [runPipelineManual, runRestOfPipeline, if_neg (by simp [hne])]
    dsimp only
    rw [if_pos (by simp [hne] : (!(dishes.map detectedDishFromManual).isEmpty) = true)]
    have hsum : ((dishes.map detectedDishFromManual).map (·.confidence)).sum =
        (dishes.length : ℚ) * (9/10) := by
      rw [List.map_map]
      have : (fun d : ManualDishInput => (detectedDishFromManual d).confidence) =
          fun _ : ManualDishInput => (9:ℚ)/10 := by
        funext d
        rfl
      rw [show ((·.confidence) ∘ detectedDishFromManual :
            ManualDishInput → ℚ) = fun _ => (9:ℚ)/10 from this]
      rw [List.map_const', List.sum_replicate, nsmul_eq_mul]
    rw [hsum, List.length_map]
    have hcast : (dishes.length : ℚ) ≠ 0 := Nat.cast_ne_zero.mpr hlen
    rw [mul_div_cancel_left₀ _ hcast]
    have h90 : (9:ℚ)/10 * 10^2 = ((90:ℤ):ℚ) := by norm_num
    rw [pyRoundTo, h90, pyRoundInt_intCast]
    norm_num

/-- C2 counterexample: with `allergies = ["chicken"]` and a single
grilled-chicken dish, the allergy filter removes the dish entirely, so both
allocator outputs are empty and — contrary to the claim — the final plan's
skip list does not contain it (it is empty). -/
theorem claim2_counterexample :
    optProcess [dishChicken] "enjoyment_first" ["chicken"] [] 2000 1350 = ([], []) ∧
    (strategyProcess (optProcess [dishChicken] "enjoyment_first" ["chicken"] [] 2000 1350).1
      (optProcess [dishChicken] "enjoyment_first" ["chicken"] [] 2000 1350).2
      "enjoyment_first" 2000).1.skip = [] := by
  have h1 : optProcess [dishChicken] "enjoyment_first" ["chicken"] [] 2000 1350 = ([], []) :=
    optProcess_eq_empty (by decide)
  refine ⟨h1, ?_⟩
  rw [h1]
  rfl

/-- C2 witness: the amended exclusion applied to the concrete chicken dish. -/
theorem claim2_witness :
    dishChicken ∉ (optProcess [dishChicken] "enjoyment_first" ["chicken"] [] 2000 1350).1 ∧
    dishChicken ∉ (optProcess [dishChicken] "enjoyment_first" ["chicken"] [] 2000 1350).2 :=
  ⟨(claim2_allergen_exclusion [dishChicken] "enjoyment_first" ["chicken"] [] 2000 1350
      "chicken" dishChicken (by decide) (by decide)).1,
   (claim2_allergen_exclusion [dishChicken] "enjoyment_first" ["chicken"] [] 2000 1350
      "chicken" dishChicken (by decide) (by decide)).2.1⟩

/-- C3 counterexample: the unrecognized name `"xyzfood123"` (the spec's own
example) gets the generic fallback profile, but its confidence is 0.7 — the
same value as the substring-match tier, not a distinct low tier. -/
theorem claim3_counterexample :
    dbNoMatch "xyzfood123" = true ∧
    ((nutritionProcess [dishXyz]).map
      (fun e => (e.nutrition_per_100g.calories, e.nutrition_per_100g.confidence))) =
      [(150, 7/10)] := by
  constructor
  · decide
  · have hlook : dbLookup "xyzfood123" = fallbackRow := dbLookup_of_noMatch (by decide)
    have hconf : strContains dbStr (pyLower "xyzfood123") = false := by decide
    simp [nutritionProcess, dishXyz, hlook, hconf, fallbackRow]

/-- C3 witness: the amended tier structure at the concrete unrecognized
dish. -/
theorem claim3_witness :
    (xyzEnriched.nutrition_per_100g.confidence = 9/10 ∨
      xyzEnriched.nutrition_per_100g.confidence = 7/10) ∧
    xyzEnriched.nutrition_per_100g.confidence =
      (if strContains dbStr (pyLower xyzEnriched.name) then (9:ℚ)/10 else 7/10) ∧
    (dbNoMatch xyzEnriched.name = true →
      xyzEnriched.nutrition_per_100g.calories = fallbackRow.cal ∧
      xyzEnriched.nutrition_per_100g.protein = fallbackRow.protein ∧
      xyzEnriched.nutrition_per_100g.fat = fallbackRow.fat ∧
      xyzEnriched.nutrition_per_100g.carbs = fallbackRow.carbs ∧
      xyzEnriched.nutrition_per_100g.fiber = fallbackRow.fiber ∧
      xyzEnriched.nutrition_per_100g.glycemic_load = fallbackRow.gl) :=
  claim3_confidence_tiers [dishXyz] xyzEnriched (by
    have h : nutritionProcess [dishXyz] = [xyzEnriched] := by
      have hlook : dbLookup "xyzfood123" = fallbackRow := dbLookup_of_noMatch (by decide)
      have hconf : strContains dbStr (pyLower "xyzfood123") = false := by decide
      simp [nutritionProcess, dishXyz, xyzEnriched, hlook, hconf, fallbackRow]
    rw [h]
    exact List.mem_singleton.mpr rfl)

/-- C10 witness: a one-dish manual list without a mass gets overall
confidence exactly 0.9. -/
theorem claim10_witness :
    (runPipelineManual [manualRice] "fat_loss" none [] []).confidence_overall = 9/10 :=
  (claim10_manual_confidence [manualRice] "fat_loss" none [] [] (by simp)).2

/-- C5 witness: the amended portion bound at a concrete dish and budgets. -/
theorem claim5_witness :
    (computePortion dishRiceTiny 2000 1350).1 ≤
      max 20 (pyRound0 dishRiceTiny.estimated_grams) :=
  (claim5_portion_bounds [dishRiceSmall] [] "fat_loss" 2000).2 dishRiceTiny 2000 1350

/-- C7 witness: the phase-structure invariants at a concrete selection. -/
theorem claim7_witness :
    (((strategyProcess [dishRiceSmall] [] "fat_loss" 2000).1.phases.map
      (fun p => p.items.map (·.dish_name))).flatten).Perm
      ([dishRiceSmall].map (·.name)) ∧
    List.Chain' (fun p q : PhaseOut => p.phase_order < q.phase_order)
      (strategyProcess [dishRiceSmall] [] "fat_loss" 2000).1.phases :=
  ⟨(claim7_phase_structure [dishRiceSmall] [] "fat_loss" 2000).1,
   (claim7_phase_structure [dishRiceSmall] [] "fat_loss" 2000).2.1⟩

/-- C4 witness: the exact-partition part applied to a duplicate-free concrete
input. -/
theorem claim4_witness :
    ((optProcess [dishSteakBig, dishRiceSmall] "muscle_gain" [] [] 2000 1350).1 ++
      (optProcess [dishSteakBig, dishRiceSmall] "muscle_gain" [] [] 2000 1350).2).Perm
      (filteredInput [dishSteakBig, dishRiceSmall] [] []) :=
  (claim4_partition [dishSteakBig, dishRiceSmall] "muscle_gain" [] [] 2000 1350).2.2
    (by simp [filteredInput, filterAllergies, filterDietary, dishSteakBig, dishRiceSmall])

/-- C1 counterexample: the 1000 g steak is scanned first (highest
muscle-gain score) and rejected for breaching the calorie budget, yet the
later rice dish is still accepted — so a rejected item does not stop later
items from being selected, contrary to the claim as stated. -/
theorem claim1_counterexample :
    greedyOrder [dishSteakBig, dishRiceSmall] "muscle_gain" [] [] =
      [dishSteakBig, dishRiceSmall] ∧
    (optProcess [dishSteakBig, dishRiceSmall] "muscle_gain" [] [] 2000 1350).1 =
      [dishRiceSmall] ∧
    dishSteakBig ∉ (optProcess [dishSteakBig, dishRiceSmall] "muscle_gain" [] [] 2000 1350).1 := by
  have h2 : (optProcess [dishSteakBig, dishRiceSmall] "muscle_gain" [] [] 2000 1350).1 =
      [dishRiceSmall] := by
    simp only [optProcess, filteredInput, filterAllergies, filterDietary, sortedScored,
      goalReward, dishSteakBig, dishRiceSmall, String.reduceEq, if_false, if_true,
      ite_false, ite_true, List.map, List.insertionSort, List.orderedInsert,
      List.isEmpty, greedyAcc, dishCalories]
    norm_num [greedyAcc, dishCalories]
  refine ⟨?_, h2, ?_⟩
  · simp only [greedyOrder, filteredInput, filterAllergies, filterDietary, sortedScored,
      goalReward, dishSteakBig, dishRiceSmall, String.reduceEq, if_false, if_true,
      ite_false, ite_true, List.map, List.insertionSort, List.orderedInsert,
      List.isEmpty]
    norm_num
  · rw [h2]
    simp [dishSteakBig, dishRiceSmall]

/-- C4 counterexample: with two identical 1000 g rice dishes only one fits
the budget; the skip list is computed with `d not in selected`, so the second
copy vanishes — the outputs hold one item in total while the filtered input
has two, refuting the exact-partition claim for duplicate items. -/
theorem claim4_counterexample :
    (filteredInput [dishRiceBig, dishRiceBig] [] []).length = 2 ∧
    (optProcess [dishRiceBig, dishRiceBig] "enjoyment_first" [] [] 2000 1350).1 =
      [dishRiceBig] ∧
    (optProcess [dishRiceBig, dishRiceBig] "enjoyment_first" [] [] 2000 1350).2 = [] := by
  refine ⟨by simp [filteredInput, filterAllergies, filterDietary], ?_, ?_⟩
  · simp only [optProcess, filteredInput, filterAllergies, filterDietary, sortedScored,
      goalReward, dishRiceBig, String.reduceEq, if_false, if_true,
      ite_false, ite_true, List.map, List.insertionSort, List.orderedInsert,
      List.isEmpty, greedyAcc, dishCalories]
    norm_num [greedyAcc, dishCalories]
  · simp only [optProcess, filteredInput, filterAllergies, filterDietary, sortedScored,
      goalReward, dishRiceBig, String.reduceEq, if_false, if_true,
      ite_false, ite_true, List.map, List.insertionSort, List.orderedInsert,
      List.isEmpty, greedyAcc, dishCalories]
    norm_num [greedyAcc, dishCalories, List.filter]

/-- C6 counterexample: with calorie budget −100 nothing is selected, and the
empty selection's calorie total 0 already exceeds the budget, so the sum of
selected calories is not ≤ the budget for every budget. -/
theorem claim6_counterexample :
    ¬ (calSum (optProcess [dishRiceSmall] "enjoyment_first" [] [] (-100) 1350).1 ≤ -100) := by
  have hsel : (optProcess [dishRiceSmall] "enjoyment_first" [] [] (-100) 1350).1 = [] := by
    simp only [optProcess, filteredInput, filterAllergies, filterDietary, sortedScored,
      goalReward, dishRiceSmall, String.reduceEq, if_false, if_true,
      ite_false, ite_true, List.map, List.insertionSort, List.orderedInsert,
      List.isEmpty, greedyAcc, dishCalories]
    norm_num [greedyAcc, dishCalories]
  rw [hsel]
  norm_num [calSum]

/-- C5 counterexample: a 10 g dish is portioned at the 20 g floor, which
exceeds its original estimated mass — so "portion ≤ original estimated mass"
fails for items lighter than 20 g. -/
theorem claim5_counterexample :
    dishRiceTiny.estimated_grams = 10 ∧
    (computePortion dishRiceTiny 2000 1350).1 = 20 ∧
    ¬ ((computePortion dishRiceTiny 2000 1350).1 ≤ dishRiceTiny.estimated_grams) := by
  have hport : (computePortion dishRiceTiny 2000 1350).1 = 20 := by
    simp only [computePortion, dishRiceTiny]
    norm_num
    rw [show ((10:ℚ) = ((10:ℤ):ℚ)) by norm_num, pyRound0_eq, pyRoundInt_intCast]
    norm_num
  refine ⟨rfl, hport, ?_⟩
  rw [hport]
  norm_num [dishRiceTiny]

end BuffetGPT
